import Mathlib

/-!
# Control plane of the four-button Bluetooth HID keyboard (`src/main/hid_buttons.c`)

The C file keeps its state in file-level globals and is driven by callbacks of a
single run loop (two timers and one packet handler).  The embedding below makes
the globals the fields of `State`, turns every callback into a function
`State → State × List Effect`, and records each call into the hardware or the
Bluetooth stack as an `Effect`, oldest first.
-/

namespace HidButtons

/-! ## Constants (lines 8-17) -/

def LED_PIN : Nat := 11
def BTN_A_PIN : Nat := 9
def BTN_W_PIN : Nat := 17
def BTN_S_PIN : Nat := 14
def BTN_D_PIN : Nat := 12

def BTN_PINS : List Nat := [BTN_A_PIN, BTN_W_PIN, BTN_S_PIN, BTN_D_PIN]
/-- Usage codes of the keys A, W, S, D (line 15). -/
def KEY_USAGE : List Nat := [0x04, 0x1A, 0x16, 0x07]

def REPORT_ID : Nat := 0x01

/-! ## Data model (lines 28-35) -/

/-- The anonymous enum of line 35. -/
inductive AppState
  | APP_BOOT
  | APP_IDLE
  | APP_CONN
  deriving DecidableEq, Repr

/-- The two `btstack_timer_source_t` objects of line 28. -/
inductive Timer
  | led_tmr
  | btn_tmr
  deriving DecidableEq, Repr

/-- What the run loop knows about one timer source: the delay last given to
`btstack_run_loop_set_timer` and whether the source is in the run loop's list. -/
structure TimerSource where
  timeout : Nat
  queued : Bool
  deriving DecidableEq, Repr

/-- The globals of the program, plus the level driven on `LED_PIN` and the two
timer sources. -/
structure State where
  led_state : Bool
  last_btn_state : Nat
  pending_report : Bool
  pending_key : Nat
  hid_cid : Nat
  app_state : AppState
  led_pin : Bool
  led_tmr : TimerSource
  btn_tmr : TimerSource
  deriving DecidableEq, Repr

/-- Calls that leave the program: watchdog, GPIO output, run loop and HID device
API.  A report is the pair of the addressed handle and the message bytes. -/
inductive Effect
  | watchdog_update
  | gpio_put (pin : Nat) (level : Bool)
  | run_loop_remove_timer (t : Timer)
  | run_loop_set_timer (t : Timer) (ms : Nat)
  | run_loop_add_timer (t : Timer)
  | request_can_send_now_event (cid : Nat)
  | send_interrupt_message (cid : Nat) (msg : List Nat)
  deriving DecidableEq, Repr

/-- Modelled from the spec: the first argument of the packet handler as compared
with `HCI_EVENT_PACKET`, a constant of `btstack.h`, which is not part of the
sources.  Only the outcome of the comparison is kept. -/
inductive PacketType
  | HCI_EVENT_PACKET
  | other
  deriving DecidableEq, Repr

/-- Modelled from the spec: the result of `btstack_event_state_get_state` as compared
with `HCI_STATE_WORKING` (`btstack.h`, not part of the sources): the transport
reporting its "working" power-on state, or any other state. -/
inductive HciState
  | HCI_STATE_WORKING
  | other
  deriving DecidableEq, Repr

/-- Modelled from the spec: the decoded HID meta event, that is the result of
`hci_event_hid_meta_get_subevent_code` together with the fields read by
`hid_subevent_connection_opened_get_status` (a `uint8_t`) and
`hid_subevent_connection_opened_get_hid_cid` (a `uint16_t`); the accessors and the
subevent codes belong to `btstack.h`, not part of the sources.  Section 6 of the
spec names these events ConnectionOpened(handle, status), ConnectionClosed and
SendGrant. -/
inductive HidSubevent
  | CONNECTION_OPENED (status : Nat) (hid_cid : Nat)
  | CONNECTION_CLOSED
  | CAN_SEND_NOW
  | other
  deriving DecidableEq, Repr

/-- Modelled from the spec: the decoded event packet, that is the result of
`hci_event_packet_get_type` with the payload the handler reads (`btstack.h`, not
part of the sources).  `BTSTACK_EVENT_STATE HCI_STATE_WORKING` is the StackReady
event of section 6. -/
inductive HciEvent
  | BTSTACK_EVENT_STATE (state : HciState)
  | HCI_EVENT_HID_META (sub : HidSubevent)
  | other
  deriving DecidableEq, Repr

/-! ## Run loop primitives -/

def State.timer (s : State) : Timer → TimerSource
  | .led_tmr => s.led_tmr
  | .btn_tmr => s.btn_tmr

def State.setTimerSource (s : State) (t : Timer) (v : TimerSource) : State :=
  match t with
  | .led_tmr => { s with led_tmr := v }
  | .btn_tmr => { s with btn_tmr := v }

/-- The state change of `btstack_run_loop_remove_timer`. -/
def run_loop_remove_timer (t : Timer) (s : State) : State :=
  s.setTimerSource t { s.timer t with queued := false }

/-- The state change of `btstack_run_loop_set_timer`. -/
def run_loop_set_timer (t : Timer) (ms : Nat) (s : State) : State :=
  s.setTimerSource t { s.timer t with timeout := ms }

/-- The state change of `btstack_run_loop_add_timer`. -/
def run_loop_add_timer (t : Timer) (s : State) : State :=
  s.setTimerSource t { s.timer t with queued := true }

/-! ## Indicator (lines 37-55) -/

/-- Line 37: `gpio_put(LED_PIN, on)`. -/
def led_set (level : Bool) (s : State) : State × List Effect :=
  ({ s with led_pin := level }, [Effect.gpio_put LED_PIN level])

/-- Lines 39-45. -/
def led_tick (ts : Timer) (s : State) : State × List Effect :=
  let s1 := { s with led_state := !s.led_state }
  let r := led_set s1.led_state s1
  let s2 := run_loop_set_timer ts 500 r.1
  let s3 := run_loop_add_timer ts s2
  (s3, [Effect.watchdog_update] ++ r.2 ++
    [Effect.run_loop_set_timer ts 500, Effect.run_loop_add_timer ts])

/-- Lines 46-51.  The assignment `led_tmr.process = led_tick` is carried by the
dispatch in `step`, where the expiry of `led_tmr` always calls `led_tick`. -/
def led_blink_start (s : State) : State × List Effect :=
  let s1 := run_loop_remove_timer .led_tmr s
  let s2 := run_loop_set_timer .led_tmr 0 s1
  let s3 := run_loop_add_timer .led_tmr s2
  (s3, [Effect.run_loop_remove_timer .led_tmr, Effect.run_loop_set_timer .led_tmr 0,
        Effect.run_loop_add_timer .led_tmr])

/-- Lines 52-55. -/
def led_on (s : State) : State × List Effect :=
  let s1 := run_loop_remove_timer .led_tmr s
  let r := led_set true s1
  (r.1, [Effect.run_loop_remove_timer .led_tmr] ++ r.2)

/-! ## Button sampler (lines 57-77) -/

/-- Line 57: the inputs are active low.  `gpio_get` gives the level of a pin. -/
def btn_pressed (gpio_get : Nat → Bool) (i : Nat) : Bool :=
  gpio_get (BTN_PINS.getD i 0) == false

/-- Lines 62-63: the loop building the `uint8_t st`. -/
def read_buttons (gpio_get : Nat → Bool) : Nat :=
  (List.range 4).foldl
    (fun st i => if btn_pressed gpio_get i then (st ||| (1 <<< i)) % 256 else st) 0

/-- Line 64: `st & ~last_btn_state` stored in a `uint8_t`; on eight bits the
complement is the exclusive or with `0xFF`. -/
def changed_mask (st last_btn_state : Nat) : Nat :=
  (st &&& (0xFF ^^^ last_btn_state)) % 256

/-- Line 67: the index at which the loop with `break` stops, if any. -/
def first_changed (changed : Nat) : Option Nat :=
  (List.range 4).find? (fun i => changed &&& (1 <<< i) != 0)

/-- Lines 59-77. -/
def btn_tick (ts : Timer) (gpio_get : Nat → Bool) (s : State) : State × List Effect :=
  let st := read_buttons gpio_get
  let changed := changed_mask st s.last_btn_state
  let r : State × List Effect :=
    if changed != 0 && s.app_state == AppState.APP_CONN && !s.pending_report then
      match first_changed changed with
      | some i =>
        ({ s with pending_key := KEY_USAGE.getD i 0, pending_report := true },
          [Effect.request_can_send_now_event s.hid_cid])
      | none => (s, [])
    else (s, [])
  let s1 := { r.1 with last_btn_state := st }
  let s2 := run_loop_set_timer ts 10 s1
  let s3 := run_loop_add_timer ts s2
  (s3, [Effect.watchdog_update] ++ r.2 ++
    [Effect.run_loop_set_timer ts 10, Effect.run_loop_add_timer ts])

/-! ## Reports and packet handler (lines 79-125) -/

/-- Lines 79-82: the `int` arguments are narrowed to the `uint8_t` elements of `msg`. -/
def send_report (mod key : Nat) (s : State) : State × List Effect :=
  (s, [Effect.send_interrupt_message s.hid_cid
        [0xA1, REPORT_ID, mod % 256, 0, key % 256, 0, 0, 0, 0, 0]])

/-- Lines 84-125. -/
def pk_handler (type : PacketType) (_ch : Nat) (pkt : HciEvent) (_size : Nat)
    (s : State) : State × List Effect :=
  if type != PacketType.HCI_EVENT_PACKET then (s, [])
  else
    match pkt with
    | .BTSTACK_EVENT_STATE state =>
      if state == HciState.HCI_STATE_WORKING then
        led_blink_start { s with app_state := .APP_IDLE }
      else (s, [])
    | .HCI_EVENT_HID_META sub =>
      match sub with
      | .CONNECTION_OPENED status cid =>
        if status != 0 then
          led_blink_start { s with app_state := .APP_IDLE, hid_cid := 0 }
        else
          led_on { s with app_state := .APP_CONN, hid_cid := cid }
      | .CONNECTION_CLOSED =>
        led_blink_start { s with app_state := .APP_IDLE, hid_cid := 0 }
      | .CAN_SEND_NOW =>
        if s.pending_report && s.pending_key != 0 then
          let r := send_report 0 s.pending_key s
          let s1 := { r.1 with pending_key := 0, pending_report := false }
          (s1, r.2 ++ [Effect.request_can_send_now_event s1.hid_cid])
        else
          send_report 0 0 s
      | .other => (s, [])
    | .other => (s, [])

/-! ## Start-up and run loop (lines 28-35, 129-172) -/

/-- The static initialisers of lines 29-35; no timer is in the run loop and the
indicator pin is low. -/
def boot : State :=
  { led_state := false, last_btn_state := 0, pending_report := false, pending_key := 0,
    hid_cid := 0, app_state := .APP_BOOT, led_pin := false,
    led_tmr := { timeout := 0, queued := false },
    btn_tmr := { timeout := 0, queued := false } }

/-- Lines 136-148 of `btstack_main`: the indicator is driven low, the button timer
is armed, blinking is started and the watchdog is fed.  The configuration of the
pins and of the Bluetooth stack has no part in the control plane. -/
def btstack_main (s : State) : State × List Effect :=
  let r1 := led_set false s
  let s2 := run_loop_add_timer .btn_tmr (run_loop_set_timer .btn_tmr 10 r1.1)
  let r3 := led_blink_start s2
  (r3.1, r1.2 ++ [Effect.run_loop_set_timer .btn_tmr 10, Effect.run_loop_add_timer .btn_tmr]
    ++ r3.2 ++ [Effect.watchdog_update])

/-- The state in which the run loop starts. -/
def initial : State := (btstack_main boot).1

/-- What the run loop can deliver: the expiry of one of the two timers (for the
button timer together with the pin levels that the tick will read) or a packet
for the registered handler. -/
inductive Event
  | led_tmr_expired
  | btn_tmr_expired (gpio_get : Nat → Bool)
  | packet (type : PacketType) (ch : Nat) (pkt : HciEvent) (size : Nat)

/-- One turn of the run loop.  A timer expires only while it is in the run loop's
list; the run loop takes it out of the list and calls its process function with
the timer itself as argument. -/
def step (s : State) : Event → State × List Effect
  | .led_tmr_expired =>
    if s.led_tmr.queued then led_tick .led_tmr (run_loop_remove_timer .led_tmr s) else (s, [])
  | .btn_tmr_expired gpio_get =>
    if s.btn_tmr.queued then btn_tick .btn_tmr gpio_get (run_loop_remove_timer .btn_tmr s)
    else (s, [])
  | .packet type ch pkt size => pk_handler type ch pkt size s

/-- A sequence of turns, with the effects of all of them in order. -/
def run (s : State) : List Event → State × List Effect
  | [] => (s, [])
  | e :: es =>
    let r := step s e
    let r2 := run r.1 es
    (r2.1, r.2 ++ r2.2)

/-- States the program can be in between two callbacks. -/
def Reachable (s : State) : Prop := ∃ evs : List Event, (run initial evs).1 = s

/-! ## Vocabulary of the specification -/

def StackReady : Event :=
  .packet .HCI_EVENT_PACKET 0 (.BTSTACK_EVENT_STATE .HCI_STATE_WORKING) 0

def ConnectionOpened (handle status : Nat) : Event :=
  .packet .HCI_EVENT_PACKET 0 (.HCI_EVENT_HID_META (.CONNECTION_OPENED status handle)) 0

def ConnectionClosed : Event :=
  .packet .HCI_EVENT_PACKET 0 (.HCI_EVENT_HID_META .CONNECTION_CLOSED) 0

def SendGrant : Event :=
  .packet .HCI_EVENT_PACKET 0 (.HCI_EVENT_HID_META .CAN_SEND_NOW) 0

/-- Pin levels with exactly the listed buttons held down (inputs are active low). -/
def pins_of (pressed : List Nat) : Nat → Bool :=
  fun pin => !(pressed.any (fun i => BTN_PINS.getD i 0 == pin))

/-- Button `i` has a rising edge: bit `i` is set in the current sample and clear
in the previous one. -/
def rising_edge (gpio_get : Nat → Bool) (s : State) (i : Nat) : Prop :=
  btn_pressed gpio_get i = true ∧ s.last_btn_state.testBit i = false

instance (gpio_get : Nat → Bool) (s : State) (i : Nat) : Decidable (rising_edge gpio_get s i) := by
  unfold rising_edge; infer_instance

/-- The send-grant requests among the effects, by addressed handle. -/
def grants : List Effect → List Nat
  | [] => []
  | .request_can_send_now_event cid :: es => cid :: grants es
  | _ :: es => grants es

/-- The transmitted reports among the effects: addressed handle and bytes. -/
def reports : List Effect → List (Nat × List Nat)
  | [] => []
  | .send_interrupt_message cid msg :: es => (cid, msg) :: reports es
  | _ :: es => reports es

/-- The 10-byte input report carrying key usage code `k`. -/
def report_bytes (k : Nat) : List Nat := [0xA1, 0x01, 0x00, 0x00, k, 0, 0, 0, 0, 0]

/-- The key byte of each transmitted report. -/
def key_bytes (es : List Effect) : List Nat := (reports es).map (fun r => r.2.getD 4 0)

/-- The state a sampling tick leaves when it enqueues the key of button `m`. -/
def enqueued (ts : Timer) (gpio_get : Nat → Bool) (s : State) (m : Nat) : State :=
  run_loop_add_timer ts (run_loop_set_timer ts 10
    { s with pending_key := KEY_USAGE.getD m 0, pending_report := true,
             last_btn_state := read_buttons gpio_get })

/-- The state a sampling tick leaves when it enqueues nothing. -/
def sampled (ts : Timer) (gpio_get : Nat → Bool) (s : State) : State :=
  run_loop_add_timer ts (run_loop_set_timer ts 10
    { s with last_btn_state := read_buttons gpio_get })

/-- The event is a StackReady: an event packet carrying `BTSTACK_EVENT_STATE` with
`HCI_STATE_WORKING`. -/
def is_stack_ready : Event → Bool
  | .packet .HCI_EVENT_PACKET _ (.BTSTACK_EVENT_STATE .HCI_STATE_WORKING) _ => true
  | _ => false

/-- The event is a SendGrant: an event packet carrying `HID_SUBEVENT_CAN_SEND_NOW`. -/
def is_send_grant : Event → Bool
  | .packet .HCI_EVENT_PACKET _ (.HCI_EVENT_HID_META .CAN_SEND_NOW) _ => true
  | _ => false

/-- Along the run from `s`, no StackReady is delivered while the device is
Connected. -/
def stack_ready_outside_conn (s : State) : List Event → Bool
  | [] => true
  | e :: es =>
    (!(is_stack_ready e && s.app_state == AppState.APP_CONN))
      && stack_ready_outside_conn (step s e).1 es

/-- The handle is zero whenever the device is not Connected. -/
def handle_inv (s : State) : Prop := s.app_state ≠ .APP_CONN → s.hid_cid = 0

/-- The flag and the key of the pending slot agree: an occupied slot holds one of
the four usage codes, an empty slot holds zero. -/
def slot_inv (s : State) : Prop :=
  (s.pending_report = true ∧ s.pending_key ∈ KEY_USAGE) ∨
  (s.pending_report = false ∧ s.pending_key = 0)

/-- The key a turn of the run loop enqueues, if any: a sampling tick that requests
a send grant has stored a key in the slot (lines 68-70). -/
def enqueued_by (s : State) : Event → List Nat
  | .btn_tmr_expired gpio_get =>
    if grants (step s (.btn_tmr_expired gpio_get)).2 ≠ [] then
      [(step s (.btn_tmr_expired gpio_get)).1.pending_key]
    else []
  | _ => []

/-- The keys enqueued by the sampling ticks of a run, in order. -/
def enqueued_keys (s : State) : List Event → List Nat
  | [] => []
  | e :: es => enqueued_by s e ++ enqueued_keys (step s e).1 es

/-- The non-zero key bytes of the transmitted reports, in order. -/
def sent_keys (es : List Effect) : List Nat := (key_bytes es).filter (fun k => k != 0)

/-- The content of the pending slot as a list: the key when the slot is occupied. -/
def slot_keys (s : State) : List Nat := if s.pending_report then [s.pending_key] else []

/-- Button `i` is sampled as pressed by the event when the event is a sampling tick. -/
def held (i : Nat) : Event → Bool
  | .btn_tmr_expired gpio_get => btn_pressed gpio_get i
  | _ => true

/-- While the device is Connected the indicator is driven on and its timer is out
of the run loop. -/
def led_inv (s : State) : Prop :=
  s.app_state = .APP_CONN → s.led_pin = true ∧ s.led_tmr.queued = false

/-- The watchdog resets among the effects. -/
def watchdog_updates (es : List Effect) : Nat := es.count Effect.watchdog_update

/-! ## Bit-level facts about the sample and the edge mask -/

theorem and_shift_ne_zero (x i : Nat) : (x &&& (1 <<< i) != 0) = x.testBit i := by
  rw [Nat.one_shiftLeft, Nat.and_two_pow]
  cases x.testBit i <;> simp

theorem changed_mask_testBit (st last i : Nat) (hi : i < 8) :
    (changed_mask st last).testBit i = (st.testBit i && !last.testBit i) := by
  unfold changed_mask
  have h256 : (256 : Nat) = 2 ^ 8 := by norm_num
  have h255 : (0xFF : Nat) = 2 ^ 8 - 1 := by norm_num
  rw [h256, Nat.testBit_mod_two_pow, Nat.testBit_and, Nat.testBit_xor, h255,
    Nat.testBit_two_pow_sub_one]
  simp [hi]

theorem read_buttons_cases (g : Nat → Bool) :
    read_buttons g = (if btn_pressed g 0 then 1 else 0) + (if btn_pressed g 1 then 2 else 0)
      + (if btn_pressed g 2 then 4 else 0) + (if btn_pressed g 3 then 8 else 0) := by
  unfold read_buttons
  simp only [List.range, List.range.loop, List.foldl]
  cases btn_pressed g 0 <;> cases btn_pressed g 1 <;> cases btn_pressed g 2 <;>
    cases btn_pressed g 3 <;> rfl

theorem read_buttons_lt (g : Nat → Bool) : read_buttons g < 16 := by
  rw [read_buttons_cases]
  cases btn_pressed g 0 <;> cases btn_pressed g 1 <;> cases btn_pressed g 2 <;>
    cases btn_pressed g 3 <;> decide

theorem read_buttons_testBit (g : Nat → Bool) (i : Nat) (hi : i < 4) :
    (read_buttons g).testBit i = btn_pressed g i := by
  rw [read_buttons_cases]
  interval_cases i <;>
  cases btn_pressed g 0 <;> cases btn_pressed g 1 <;> cases btn_pressed g 2 <;>
    cases btn_pressed g 3 <;> decide

theorem changed_mask_lt (g : Nat → Bool) (last : Nat) :
    changed_mask (read_buttons g) last < 16 := by
  unfold changed_mask
  have h1 : read_buttons g &&& (0xFF ^^^ last) ≤ read_buttons g := Nat.and_le_left
  have h2 := read_buttons_lt g
  have h3 : (read_buttons g &&& (0xFF ^^^ last)) % 256 ≤ read_buttons g &&& (0xFF ^^^ last) :=
    Nat.mod_le _ _
  omega

theorem rising_edge_iff (g : Nat → Bool) (s : State) (i : Nat) (hi : i < 4) :
    rising_edge g s i ↔ (changed_mask (read_buttons g) s.last_btn_state).testBit i = true := by
  unfold rising_edge
  rw [changed_mask_testBit _ _ _ (by omega), read_buttons_testBit g i hi]
  simp

theorem ne_zero_iff_low_bit : ∀ x < 16, (x ≠ 0 ↔ ∃ i < 4, x.testBit i = true) := by
  decide

theorem changed_ne_zero_iff (g : Nat → Bool) (s : State) :
    changed_mask (read_buttons g) s.last_btn_state ≠ 0 ↔ ∃ i < 4, rising_edge g s i := by
  rw [ne_zero_iff_low_bit _ (changed_mask_lt g s.last_btn_state)]
  constructor
  · rintro ⟨i, hi, h⟩
    exact ⟨i, hi, (rising_edge_iff g s i hi).2 h⟩
  · rintro ⟨i, hi, h⟩
    exact ⟨i, hi, (rising_edge_iff g s i hi).1 h⟩

theorem first_changed_eq (c m : Nat) (hm : m < 4) (hbit : c.testBit m = true)
    (hlow : ∀ j < m, c.testBit j = false) : first_changed c = some m := by
  unfold first_changed
  simp only [List.range, List.range.loop, List.find?, and_shift_ne_zero]
  interval_cases m
  · simp [hbit]
  · simp [hbit, hlow 0 (by omega)]
  · simp [hbit, hlow 0 (by omega), hlow 1 (by omega)]
  · simp [hbit, hlow 0 (by omega), hlow 1 (by omega), hlow 2 (by omega)]

/-! ## The two outcomes of a sampling tick -/

theorem btn_tick_enqueue (ts : Timer) (g : Nat → Bool) (s : State) (m : Nat)
    (hc : s.app_state = .APP_CONN) (hp : s.pending_report = false) (hm : m < 4)
    (hr : rising_edge g s m) (hlow : ∀ j < m, ¬ rising_edge g s j) :
    btn_tick ts g s = (enqueued ts g s m,
      [.watchdog_update, .request_can_send_now_event s.hid_cid,
       .run_loop_set_timer ts 10, .run_loop_add_timer ts]) := by
  have hne : changed_mask (read_buttons g) s.last_btn_state ≠ 0 :=
    (changed_ne_zero_iff g s).2 ⟨m, hm, hr⟩
  have hfc : first_changed (changed_mask (read_buttons g) s.last_btn_state) = some m := by
    apply first_changed_eq _ _ hm ((rising_edge_iff g s m hm).1 hr)
    intro j hj
    have := hlow j hj
    rw [rising_edge_iff g s j (by omega)] at this
    simpa using this
  simp [btn_tick, enqueued, hc, hp, hne, hfc]

theorem btn_tick_skip (ts : Timer) (g : Nat → Bool) (s : State)
    (h : ¬ (s.app_state = .APP_CONN ∧ s.pending_report = false ∧ ∃ i < 4, rising_edge g s i)) :
    btn_tick ts g s = (sampled ts g s,
      [.watchdog_update, .run_loop_set_timer ts 10, .run_loop_add_timer ts]) := by
  have hcond : (changed_mask (read_buttons g) s.last_btn_state != 0
      && s.app_state == AppState.APP_CONN && !s.pending_report) = false := by
    by_contra hc
    simp only [Bool.not_eq_false, Bool.and_eq_true, bne_iff_ne, beq_iff_eq,
      Bool.not_eq_true'] at hc
    exact h ⟨hc.1.2, hc.2, (changed_ne_zero_iff g s).1 hc.1.1⟩
  simp [btn_tick, sampled, hcond]

/-! ## Connection state machine -/

/-- C1: the packet handler follows the transition table of section 4.1.  From
Booting, StackReady gives Idle and starts the blink timer; from Idle, a
ConnectionOpened with status 0 and handle `h` gives Connected with handle `h`, the
blink timer removed and the indicator driven on; from Idle, a ConnectionOpened with
a non-zero status gives Idle with handle 0 and blinking restarted; from Connected,
ConnectionClosed gives Idle with handle 0 and blinking restarted.  In each case
nothing else of the state changes and nothing else is emitted. -/
theorem C1_transition_table (s : State) (ch size h status : Nat) :
    (s.app_state = .APP_BOOT →
      pk_handler .HCI_EVENT_PACKET ch (.BTSTACK_EVENT_STATE .HCI_STATE_WORKING) size s =
        ({ s with app_state := .APP_IDLE, led_tmr := { timeout := 0, queued := true } },
         [.run_loop_remove_timer .led_tmr, .run_loop_set_timer .led_tmr 0,
          .run_loop_add_timer .led_tmr])) ∧
    (s.app_state = .APP_IDLE →
      pk_handler .HCI_EVENT_PACKET ch (.HCI_EVENT_HID_META (.CONNECTION_OPENED 0 h)) size s =
        ({ s with app_state := .APP_CONN, hid_cid := h, led_pin := true,
                  led_tmr := { s.led_tmr with queued := false } },
         [.run_loop_remove_timer .led_tmr, .gpio_put LED_PIN true])) ∧
    (s.app_state = .APP_IDLE → status ≠ 0 →
      pk_handler .HCI_EVENT_PACKET ch (.HCI_EVENT_HID_META (.CONNECTION_OPENED status h)) size s =
        ({ s with app_state := .APP_IDLE, hid_cid := 0,
                  led_tmr := { timeout := 0, queued := true } },
         [.run_loop_remove_timer .led_tmr, .run_loop_set_timer .led_tmr 0,
          .run_loop_add_timer .led_tmr])) ∧
    (s.app_state = .APP_CONN →
      pk_handler .HCI_EVENT_PACKET ch (.HCI_EVENT_HID_META .CONNECTION_CLOSED) size s =
        ({ s with app_state := .APP_IDLE, hid_cid := 0,
                  led_tmr := { timeout := 0, queued := true } },
         [.run_loop_remove_timer .led_tmr, .run_loop_set_timer .led_tmr 0,
          .run_loop_add_timer .led_tmr])) := by
  refine ⟨?_, ?_, ?_, ?_⟩
  · intro _
    simp [pk_handler, led_blink_start, run_loop_remove_timer, run_loop_set_timer,
      run_loop_add_timer, State.setTimerSource, State.timer]
  · intro _
    simp [pk_handler, led_on, led_set, run_loop_remove_timer, State.setTimerSource,
      State.timer]
  · intro _ hst
    simp [pk_handler, hst, led_blink_start, run_loop_remove_timer, run_loop_set_timer,
      run_loop_add_timer, State.setTimerSource, State.timer]
  · intro _
    simp [pk_handler, led_blink_start, run_loop_remove_timer, run_loop_set_timer,
      run_loop_add_timer, State.setTimerSource, State.timer]

/-- Witness for C1: the four rows at the start state, at the Idle state after
StackReady and at the Connected state after an accepted connection with handle 7. -/
theorem C1_transition_table_witness :
    (pk_handler .HCI_EVENT_PACKET 0 (.BTSTACK_EVENT_STATE .HCI_STATE_WORKING) 0 initial).1.app_state
        = .APP_IDLE ∧
    (pk_handler .HCI_EVENT_PACKET 0 (.HCI_EVENT_HID_META (.CONNECTION_OPENED 0 7)) 0
        (run initial [StackReady]).1).1.hid_cid = 7 ∧
    (pk_handler .HCI_EVENT_PACKET 0 (.HCI_EVENT_HID_META (.CONNECTION_OPENED 4 7)) 0
        (run initial [StackReady]).1).1.app_state = .APP_IDLE ∧
    (pk_handler .HCI_EVENT_PACKET 0 (.HCI_EVENT_HID_META .CONNECTION_CLOSED) 0
        (run initial [StackReady, ConnectionOpened 7 0]).1).1.hid_cid = 0 :=
  ⟨by rw [(C1_transition_table initial 0 0 7 4).1 (by decide)],
   by rw [(C1_transition_table (run initial [StackReady]).1 0 0 7 4).2.1 (by decide)],
   by rw [(C1_transition_table (run initial [StackReady]).1 0 0 7 4).2.2.1 (by decide)
        (by decide)],
   by rw [(C1_transition_table (run initial [StackReady, ConnectionOpened 7 0]).1
        0 0 7 4).2.2.2 (by decide)]⟩

/-- Counterexample for C2: at the start state (Booting) a successful
ConnectionOpened gives Connected and a ConnectionClosed gives Idle, and in the
Connected state reached by StackReady and ConnectionOpened(7, 0) a further
StackReady gives Idle; DeviceState does not stay unchanged. -/
theorem C2_counterexample :
    initial.app_state = .APP_BOOT ∧
    (step initial (ConnectionOpened 7 0)).1.app_state = .APP_CONN ∧
    (step initial ConnectionClosed).1.app_state = .APP_IDLE ∧
    (run initial [StackReady, ConnectionOpened 7 0]).1.app_state = .APP_CONN ∧
    (step (run initial [StackReady, ConnectionOpened 7 0]).1 StackReady).1.app_state
      = .APP_IDLE := by
  decide

/-- C2 (amended): the packet handler never reads DeviceState.  From every state
StackReady gives Idle, ConnectionOpened gives Connected when its status is 0 and Idle
otherwise, and ConnectionClosed gives Idle.  So DeviceState is left unchanged by
StackReady while Idle, by a successful ConnectionOpened while Connected, and by a
failed ConnectionOpened or a ConnectionClosed while Idle; a ConnectionClosed while
Idle changes nothing beyond clearing the handle and restarting the blink timer.  A
state event for a non-working state, an unrecognised event and a packet that is not
an event packet change nothing and emit nothing. -/
theorem C2_lifecycle_events_unguarded (s : State) (ch size h status : Nat) :
    (pk_handler .HCI_EVENT_PACKET ch (.BTSTACK_EVENT_STATE .HCI_STATE_WORKING) size s).1.app_state
      = .APP_IDLE ∧
    (pk_handler .HCI_EVENT_PACKET ch (.HCI_EVENT_HID_META (.CONNECTION_OPENED status h))
      size s).1.app_state = (if status ≠ 0 then .APP_IDLE else .APP_CONN) ∧
    (pk_handler .HCI_EVENT_PACKET ch (.HCI_EVENT_HID_META .CONNECTION_CLOSED) size s).1.app_state
      = .APP_IDLE ∧
    (s.app_state = .APP_IDLE →
      (pk_handler .HCI_EVENT_PACKET ch (.BTSTACK_EVENT_STATE .HCI_STATE_WORKING) size s).1.app_state
        = s.app_state ∧
      (status ≠ 0 →
        (pk_handler .HCI_EVENT_PACKET ch (.HCI_EVENT_HID_META (.CONNECTION_OPENED status h))
          size s).1.app_state = s.app_state) ∧
      (pk_handler .HCI_EVENT_PACKET ch (.HCI_EVENT_HID_META .CONNECTION_CLOSED) size s).1
        = { s with hid_cid := 0, led_tmr := { timeout := 0, queued := true } }) ∧
    (s.app_state = .APP_CONN →
      (pk_handler .HCI_EVENT_PACKET ch (.HCI_EVENT_HID_META (.CONNECTION_OPENED 0 h))
        size s).1.app_state = s.app_state) ∧
    pk_handler .HCI_EVENT_PACKET ch (.BTSTACK_EVENT_STATE .other) size s = (s, []) ∧
    pk_handler .HCI_EVENT_PACKET ch (.HCI_EVENT_HID_META .other) size s = (s, []) ∧
    pk_handler .HCI_EVENT_PACKET ch .other size s = (s, []) ∧
    (∀ pkt, pk_handler .other ch pkt size s = (s, [])) := by
  refine ⟨?_, ?_, ?_, ?_, ?_, ?_, ?_, ?_, ?_⟩
  · simp [pk_handler, led_blink_start, run_loop_remove_timer, run_loop_set_timer,
      run_loop_add_timer, State.setTimerSource, State.timer]
  · by_cases hst : status = 0
    · simp [pk_handler, hst, led_on, led_set, run_loop_remove_timer, State.setTimerSource,
        State.timer]
    · simp [pk_handler, hst, led_blink_start, run_loop_remove_timer, run_loop_set_timer,
        run_loop_add_timer, State.setTimerSource, State.timer]
  · simp [pk_handler, led_blink_start, run_loop_remove_timer, run_loop_set_timer,
      run_loop_add_timer, State.setTimerSource, State.timer]
  · intro hidle
    refine ⟨?_, ?_, ?_⟩
    · simp [pk_handler, hidle, led_blink_start, run_loop_remove_timer, run_loop_set_timer,
        run_loop_add_timer, State.setTimerSource, State.timer]
    · intro hst
      simp [pk_handler, hst, hidle, led_blink_start, run_loop_remove_timer,
        run_loop_set_timer, run_loop_add_timer, State.setTimerSource, State.timer]
    · cases s
      simp_all [pk_handler, led_blink_start, run_loop_remove_timer, run_loop_set_timer,
        run_loop_add_timer, State.setTimerSource, State.timer]
  · intro hconn
    simp [pk_handler, hconn, led_on, led_set, run_loop_remove_timer, State.setTimerSource,
      State.timer]
  · simp [pk_handler]
  · simp [pk_handler]
  · simp [pk_handler]
  · intro pkt
    simp [pk_handler]

/-- Witness for C2 (amended): the Idle state after StackReady and the Connected
state after ConnectionOpened(7, 0). -/
theorem C2_lifecycle_events_unguarded_witness :
    (pk_handler .HCI_EVENT_PACKET 0 (.HCI_EVENT_HID_META .CONNECTION_CLOSED) 0
        (run initial [StackReady]).1).1
      = { (run initial [StackReady]).1 with
            hid_cid := 0, led_tmr := { timeout := 0, queued := true } } ∧
    (pk_handler .HCI_EVENT_PACKET 0 (.HCI_EVENT_HID_META (.CONNECTION_OPENED 0 9)) 0
        (run initial [StackReady, ConnectionOpened 7 0]).1).1.app_state
      = (run initial [StackReady, ConnectionOpened 7 0]).1.app_state :=
  ⟨((C2_lifecycle_events_unguarded (run initial [StackReady]).1 0 0 9 3).2.2.2.1
      (by decide)).2.2,
   (C2_lifecycle_events_unguarded (run initial [StackReady, ConnectionOpened 7 0]).1
      0 0 9 3).2.2.2.2.1 (by decide)⟩

/-! ## Fields untouched by the timers -/

@[simp] theorem setTimerSource_app_state (s : State) (t : Timer) (v : TimerSource) :
    (s.setTimerSource t v).app_state = s.app_state := by cases t <;> rfl

@[simp] theorem setTimerSource_hid_cid (s : State) (t : Timer) (v : TimerSource) :
    (s.setTimerSource t v).hid_cid = s.hid_cid := by cases t <;> rfl

@[simp] theorem setTimerSource_pending_report (s : State) (t : Timer) (v : TimerSource) :
    (s.setTimerSource t v).pending_report = s.pending_report := by cases t <;> rfl

@[simp] theorem setTimerSource_pending_key (s : State) (t : Timer) (v : TimerSource) :
    (s.setTimerSource t v).pending_key = s.pending_key := by cases t <;> rfl

@[simp] theorem setTimerSource_last_btn_state (s : State) (t : Timer) (v : TimerSource) :
    (s.setTimerSource t v).last_btn_state = s.last_btn_state := by cases t <;> rfl

@[simp] theorem setTimerSource_led_state (s : State) (t : Timer) (v : TimerSource) :
    (s.setTimerSource t v).led_state = s.led_state := by cases t <;> rfl

@[simp] theorem setTimerSource_led_pin (s : State) (t : Timer) (v : TimerSource) :
    (s.setTimerSource t v).led_pin = s.led_pin := by cases t <;> rfl

theorem led_tick_app_state (ts : Timer) (s : State) :
    (led_tick ts s).1.app_state = s.app_state ∧ (led_tick ts s).1.hid_cid = s.hid_cid ∧
    (led_tick ts s).1.pending_report = s.pending_report ∧
    (led_tick ts s).1.pending_key = s.pending_key := by
  simp [led_tick, led_set, run_loop_set_timer, run_loop_add_timer]

theorem btn_tick_app_state (ts : Timer) (g : Nat → Bool) (s : State) :
    (btn_tick ts g s).1.app_state = s.app_state ∧ (btn_tick ts g s).1.hid_cid = s.hid_cid := by
  unfold btn_tick
  simp only [run_loop_set_timer, run_loop_add_timer, setTimerSource_app_state,
    setTimerSource_hid_cid]
  split
  · split <;> simp
  · simp

theorem send_grant_occupied (s : State) (ch size : Nat) (hp : s.pending_report = true)
    (hk : s.pending_key ≠ 0) :
    pk_handler .HCI_EVENT_PACKET ch (.HCI_EVENT_HID_META .CAN_SEND_NOW) size s =
      ({ s with pending_key := 0, pending_report := false },
       [.send_interrupt_message s.hid_cid [0xA1, 0x01, 0, 0, s.pending_key % 256, 0, 0, 0, 0, 0],
        .request_can_send_now_event s.hid_cid]) := by
  simp [pk_handler, send_report, hp, hk, REPORT_ID]

theorem send_grant_idle (s : State) (ch size : Nat)
    (h : ¬ (s.pending_report = true ∧ s.pending_key ≠ 0)) :
    pk_handler .HCI_EVENT_PACKET ch (.HCI_EVENT_HID_META .CAN_SEND_NOW) size s =
      (s, [.send_interrupt_message s.hid_cid [0xA1, 0x01, 0, 0, 0, 0, 0, 0, 0, 0]]) := by
  have hc : (s.pending_report && s.pending_key != 0) = false := by
    by_contra hne
    simp only [Bool.not_eq_false, Bool.and_eq_true, bne_iff_ne] at hne
    exact h hne
  simp [pk_handler, send_report, hc, REPORT_ID]

theorem step_handle_inv (s : State) (e : Event) (hinv : handle_inv s)
    (hok : (is_stack_ready e && s.app_state == AppState.APP_CONN) = false) :
    handle_inv (step s e).1 := by
  unfold handle_inv at *
  cases e with
  | led_tmr_expired =>
    simp only [step]
    split
    · rw [(led_tick_app_state _ _).1, (led_tick_app_state _ _).2.1]
      simpa [run_loop_remove_timer] using hinv
    · exact hinv
  | btn_tmr_expired g =>
    simp only [step]
    split
    · rw [(btn_tick_app_state _ _ _).1, (btn_tick_app_state _ _ _).2]
      simpa [run_loop_remove_timer] using hinv
    · exact hinv
  | packet type ch pkt size =>
    cases type with
    | other => simpa [step, pk_handler] using hinv
    | HCI_EVENT_PACKET =>
      cases pkt with
      | other => simpa [step, pk_handler] using hinv
      | BTSTACK_EVENT_STATE st =>
        cases st with
        | other => simpa [step, pk_handler] using hinv
        | HCI_STATE_WORKING =>
          have hnc : s.app_state ≠ .APP_CONN := by simpa [is_stack_ready] using hok
          have h0 := hinv hnc
          simp [step, pk_handler, led_blink_start, run_loop_remove_timer, run_loop_set_timer,
            run_loop_add_timer, h0]
      | HCI_EVENT_HID_META sub =>
        cases sub with
        | other => simpa [step, pk_handler] using hinv
        | CONNECTION_CLOSED =>
          simp [step, pk_handler, led_blink_start, run_loop_remove_timer, run_loop_set_timer,
            run_loop_add_timer]
        | CONNECTION_OPENED status cid =>
          by_cases hst : status = 0
          · simp [step, pk_handler, hst, led_on, led_set, run_loop_remove_timer]
          · simp [step, pk_handler, hst, led_blink_start, run_loop_remove_timer,
              run_loop_set_timer, run_loop_add_timer]
        | CAN_SEND_NOW =>
          by_cases hocc : s.pending_report = true ∧ s.pending_key ≠ 0
          · simp only [step, send_grant_occupied s ch size hocc.1 hocc.2]
            exact hinv
          · simp only [step, send_grant_idle s ch size hocc]
            exact hinv

theorem run_handle_inv (evs : List Event) : ∀ s : State, handle_inv s →
    stack_ready_outside_conn s evs = true → handle_inv (run s evs).1 := by
  induction evs with
  | nil => intro s h _; simpa [run] using h
  | cons e es ih =>
    intro s h hok
    simp only [stack_ready_outside_conn, Bool.and_eq_true, Bool.not_eq_true'] at hok
    simp only [run]
    exact ih _ (step_handle_inv s e h hok.1) hok.2

/-- Counterexample for C3: after ConnectionOpened(7, 0) and a StackReady the device
is Idle and still holds handle 7. -/
theorem C3_counterexample :
    Reachable (run initial [StackReady, ConnectionOpened 7 0, StackReady]).1 ∧
    (run initial [StackReady, ConnectionOpened 7 0, StackReady]).1.app_state ≠ .APP_CONN ∧
    (run initial [StackReady, ConnectionOpened 7 0, StackReady]).1.hid_cid = 7 :=
  ⟨⟨_, rfl⟩, by decide, by decide⟩

/-- C3 (amended): in every state reached from the start state by a sequence of timer
expiries and packets in which no StackReady is delivered while the device is
Connected, the handle is zero whenever the device is not Connected. -/
theorem C3_handle_zero_unless_connected (evs : List Event)
    (hok : stack_ready_outside_conn initial evs = true) :
    (run initial evs).1.app_state ≠ .APP_CONN → (run initial evs).1.hid_cid = 0 :=
  run_handle_inv evs initial (by intro _; rfl) hok

/-- Witness for C3 (amended): connect, press A, let the key go out, disconnect. -/
theorem C3_handle_zero_unless_connected_witness :
    (run initial [StackReady, ConnectionOpened 7 0, .btn_tmr_expired (pins_of [0]),
      SendGrant, .led_tmr_expired, ConnectionClosed]).1.hid_cid = 0 :=
  C3_handle_zero_unless_connected
    [StackReady, ConnectionOpened 7 0, .btn_tmr_expired (pins_of [0]),
      SendGrant, .led_tmr_expired, ConnectionClosed] (by decide) (by decide)

/-! ## Button sampler -/

theorem enqueued_fields (ts : Timer) (g : Nat → Bool) (s : State) (m : Nat) :
    (enqueued ts g s m).pending_report = true ∧
    (enqueued ts g s m).pending_key = KEY_USAGE.getD m 0 ∧
    (enqueued ts g s m).last_btn_state = read_buttons g ∧
    (enqueued ts g s m).hid_cid = s.hid_cid ∧
    (enqueued ts g s m).app_state = s.app_state := by
  simp [enqueued, run_loop_set_timer, run_loop_add_timer]

theorem sampled_fields (ts : Timer) (g : Nat → Bool) (s : State) :
    (sampled ts g s).pending_report = s.pending_report ∧
    (sampled ts g s).pending_key = s.pending_key ∧
    (sampled ts g s).last_btn_state = read_buttons g ∧
    (sampled ts g s).hid_cid = s.hid_cid ∧
    (sampled ts g s).app_state = s.app_state := by
  simp [sampled, run_loop_set_timer, run_loop_add_timer]

theorem no_edge_of_same_sample (g : Nat → Bool) (s : State)
    (h : s.last_btn_state = read_buttons g) : ¬ ∃ i < 4, rising_edge g s i := by
  rintro ⟨i, hi, hp, hl⟩
  rw [h, read_buttons_testBit g i hi] at hl
  rw [hp] at hl
  exact Bool.noConfusion hl

/-- C4: when the device is Connected and the slot is empty, a sampling tick whose
sample has a rising edge on button `i` (`i < 4`) and on no other button leaves the
slot occupied with `KEY_USAGE[i]` (0x04, 0x1A, 0x16, 0x07 for A, W, S, D), requests
exactly one send grant, addressed to the stored handle, and transmits no report. -/
theorem C4_single_edge_enqueues_key (ts : Timer) (gpio_get : Nat → Bool) (s : State) (i : Nat)
    (hi : i < 4) (hconn : s.app_state = .APP_CONN) (hempty : s.pending_report = false)
    (hedge : rising_edge gpio_get s i)
    (hothers : ∀ j < 4, j ≠ i → ¬ rising_edge gpio_get s j) :
    (btn_tick ts gpio_get s).1.pending_report = true ∧
    (btn_tick ts gpio_get s).1.pending_key = [0x04, 0x1A, 0x16, 0x07].getD i 0 ∧
    (btn_tick ts gpio_get s).1.pending_key = KEY_USAGE.getD i 0 ∧
    grants (btn_tick ts gpio_get s).2 = [s.hid_cid] ∧
    (btn_tick ts gpio_get s).1.hid_cid = s.hid_cid ∧
    reports (btn_tick ts gpio_get s).2 = [] := by
  have h := btn_tick_enqueue ts gpio_get s i hconn hempty hi hedge
    (fun j hj => hothers j (by omega) (by omega))
  have hf := enqueued_fields ts gpio_get s i
  rw [h]
  exact ⟨hf.1, hf.2.1, hf.2.1, rfl, hf.2.2.2.1, rfl⟩

/-- Witness for C4: button W (index 1) newly pressed in the Connected state with
handle 7. -/
theorem C4_single_edge_enqueues_key_witness :
    (btn_tick .btn_tmr (pins_of [1]) (run initial [StackReady, ConnectionOpened 7 0]).1).1.pending_key
      = 0x1A ∧
    grants (btn_tick .btn_tmr (pins_of [1]) (run initial [StackReady, ConnectionOpened 7 0]).1).2
      = [7] :=
  have h := C4_single_edge_enqueues_key .btn_tmr (pins_of [1])
    (run initial [StackReady, ConnectionOpened 7 0]).1 1 (by decide) (by decide) (by decide)
    (by decide) (by decide)
  ⟨h.2.1, h.2.2.2.1⟩

/-- C5: when the device is Connected, the slot is empty and two or more buttons have
a rising edge on the same sampling tick, the key enqueued is `KEY_USAGE[m]` for the
smallest index `m` with a rising edge and exactly one grant is requested.  The
other edges are dropped: the tick stores the sample as the previous mask, so a
later tick with the same sample enqueues nothing, whether it comes directly after
or in any state with that previous mask (for instance once the slot has been
emptied by a send grant). -/
theorem C5_lowest_index_wins (ts ts2 : Timer) (gpio_get : Nat → Bool) (s : State) (m k : Nat)
    (hconn : s.app_state = .APP_CONN) (hempty : s.pending_report = false)
    (hm : m < 4) (hedge : rising_edge gpio_get s m)
    (hlow : ∀ j < m, ¬ rising_edge gpio_get s j)
    (_hk : k < 4) (_hkm : k ≠ m) (hedge2 : rising_edge gpio_get s k) :
    (btn_tick ts gpio_get s).1.pending_report = true ∧
    (btn_tick ts gpio_get s).1.pending_key = KEY_USAGE.getD m 0 ∧
    m < k ∧
    grants (btn_tick ts gpio_get s).2 = [s.hid_cid] ∧
    (btn_tick ts2 gpio_get (btn_tick ts gpio_get s).1).1.pending_key = KEY_USAGE.getD m 0 ∧
    grants (btn_tick ts2 gpio_get (btn_tick ts gpio_get s).1).2 = [] ∧
    (∀ s2 : State, s2.last_btn_state = (btn_tick ts gpio_get s).1.last_btn_state →
      (btn_tick ts2 gpio_get s2).1.pending_report = s2.pending_report ∧
      (btn_tick ts2 gpio_get s2).1.pending_key = s2.pending_key ∧
      grants (btn_tick ts2 gpio_get s2).2 = []) := by
  have h := btn_tick_enqueue ts gpio_get s m hconn hempty hm hedge hlow
  have hf := enqueued_fields ts gpio_get s m
  have hlt : m < k := by
    rcases Nat.lt_or_ge m k with h1 | h1
    · exact h1
    · exact absurd hedge2 (hlow k (by omega))
  have hnext : ∀ s2 : State, s2.last_btn_state = read_buttons gpio_get →
      (btn_tick ts2 gpio_get s2).1.pending_report = s2.pending_report ∧
      (btn_tick ts2 gpio_get s2).1.pending_key = s2.pending_key ∧
      grants (btn_tick ts2 gpio_get s2).2 = [] := by
    intro s2 h2
    have hs := btn_tick_skip ts2 gpio_get s2
      (fun hc => no_edge_of_same_sample gpio_get s2 h2 hc.2.2)
    have hf2 := sampled_fields ts2 gpio_get s2
    rw [hs]
    exact ⟨hf2.1, hf2.2.1, rfl⟩
  rw [h]
  refine ⟨hf.1, hf.2.1, hlt, rfl, ?_, ?_, ?_⟩
  · rw [(hnext _ hf.2.2.1).2.1]; exact hf.2.1
  · exact (hnext _ hf.2.2.1).2.2
  · intro s2 h2
    exact hnext s2 (h2.trans hf.2.2.1)

/-- Witness for C5: S and D (indices 2 and 3) newly pressed together in the
Connected state; S is enqueued and D is not enqueued by the next tick. -/
theorem C5_lowest_index_wins_witness :
    (btn_tick .btn_tmr (pins_of [2, 3])
      (run initial [StackReady, ConnectionOpened 7 0]).1).1.pending_key = KEY_USAGE.getD 2 0 ∧
    grants (btn_tick .btn_tmr (pins_of [2, 3])
      (btn_tick .btn_tmr (pins_of [2, 3])
        (run initial [StackReady, ConnectionOpened 7 0]).1).1).2 = [] :=
  have h := C5_lowest_index_wins .btn_tmr .btn_tmr (pins_of [2, 3])
    (run initial [StackReady, ConnectionOpened 7 0]).1 2 3 (by decide) (by decide) (by decide)
    (by decide) (by decide) (by decide) (by decide) (by decide)
  ⟨h.2.1, h.2.2.2.2.2.1⟩

/-- C9: a sampling tick enqueues a key exactly when the device is Connected, the
slot is empty and the sample has at least one rising edge (`current & ~previous`
is non-zero, that is some button below 4 has a rising edge).  In that case the slot
becomes occupied with a key of `KEY_USAGE` and one grant is requested for the
stored handle; in every other case the flag and the key of the slot are left as
they were and no grant is requested.  In both cases the sample becomes the
previous mask, so an edge that arrives while the slot is occupied is dropped. -/
theorem C9_enqueue_iff (ts : Timer) (gpio_get : Nat → Bool) (s : State) :
    (changed_mask (read_buttons gpio_get) s.last_btn_state ≠ 0 ↔
      ∃ i < 4, rising_edge gpio_get s i) ∧
    (grants (btn_tick ts gpio_get s).2 ≠ [] ↔
      (s.app_state = .APP_CONN ∧ s.pending_report = false ∧
        changed_mask (read_buttons gpio_get) s.last_btn_state ≠ 0)) ∧
    ((s.app_state = .APP_CONN ∧ s.pending_report = false ∧
        changed_mask (read_buttons gpio_get) s.last_btn_state ≠ 0) →
      (btn_tick ts gpio_get s).1.pending_report = true ∧
      (∃ i < 4, rising_edge gpio_get s i ∧
        (btn_tick ts gpio_get s).1.pending_key = KEY_USAGE.getD i 0) ∧
      grants (btn_tick ts gpio_get s).2 = [s.hid_cid]) ∧
    (¬ (s.app_state = .APP_CONN ∧ s.pending_report = false ∧
        changed_mask (read_buttons gpio_get) s.last_btn_state ≠ 0) →
      (btn_tick ts gpio_get s).1.pending_report = s.pending_report ∧
      (btn_tick ts gpio_get s).1.pending_key = s.pending_key ∧
      grants (btn_tick ts gpio_get s).2 = []) ∧
    (btn_tick ts gpio_get s).1.last_btn_state = read_buttons gpio_get ∧
    reports (btn_tick ts gpio_get s).2 = [] := by
  have hiff := changed_ne_zero_iff gpio_get s
  have hyes : (s.app_state = .APP_CONN ∧ s.pending_report = false ∧
        changed_mask (read_buttons gpio_get) s.last_btn_state ≠ 0) →
      ∃ m < 4, rising_edge gpio_get s m ∧
        btn_tick ts gpio_get s = (enqueued ts gpio_get s m,
          [.watchdog_update, .request_can_send_now_event s.hid_cid,
           .run_loop_set_timer ts 10, .run_loop_add_timer ts]) := by
    rintro ⟨hc, hp, hne⟩
    have hex : ∃ i, i < 4 ∧ rising_edge gpio_get s i := by
      obtain ⟨i, hi, hr⟩ := hiff.1 hne
      exact ⟨i, hi, hr⟩
    have hmin : ∀ {j : Nat}, j < Nat.find hex → ¬ (j < 4 ∧ rising_edge gpio_get s j) :=
      fun hj => Nat.find_min hex hj
    obtain ⟨hm, hr⟩ := Nat.find_spec hex
    refine ⟨Nat.find hex, hm, hr, ?_⟩
    apply btn_tick_enqueue ts gpio_get s _ hc hp hm hr
    intro j hj hrj
    exact hmin hj ⟨by omega, hrj⟩
  have hno : ¬ (s.app_state = .APP_CONN ∧ s.pending_report = false ∧
        changed_mask (read_buttons gpio_get) s.last_btn_state ≠ 0) →
      btn_tick ts gpio_get s = (sampled ts gpio_get s,
        [.watchdog_update, .run_loop_set_timer ts 10, .run_loop_add_timer ts]) := by
    intro h
    apply btn_tick_skip
    rintro ⟨hc, hp, hex⟩
    exact h ⟨hc, hp, hiff.2 hex⟩
  refine ⟨hiff, ?_, ?_, ?_, ?_, ?_⟩
  · constructor
    · intro hg
      by_contra hcond
      rw [hno hcond] at hg
      exact hg rfl
    · intro hcond
      obtain ⟨m, _, _, hm⟩ := hyes hcond
      rw [hm]
      simp [grants]
  · intro hcond
    obtain ⟨m, hm4, hr, hm⟩ := hyes hcond
    rw [hm]
    exact ⟨(enqueued_fields ts gpio_get s m).1,
      ⟨m, hm4, hr, (enqueued_fields ts gpio_get s m).2.1⟩, rfl⟩
  · intro hcond
    rw [hno hcond]
    exact ⟨(sampled_fields ts gpio_get s).1, (sampled_fields ts gpio_get s).2.1, rfl⟩
  · by_cases hcond : s.app_state = .APP_CONN ∧ s.pending_report = false ∧
        changed_mask (read_buttons gpio_get) s.last_btn_state ≠ 0
    · obtain ⟨m, _, _, hm⟩ := hyes hcond
      rw [hm]
      exact (enqueued_fields ts gpio_get s m).2.2.1
    · rw [hno hcond]
      exact (sampled_fields ts gpio_get s).2.2.1
  · by_cases hcond : s.app_state = .APP_CONN ∧ s.pending_report = false ∧
        changed_mask (read_buttons gpio_get) s.last_btn_state ≠ 0
    · obtain ⟨m, _, _, hm⟩ := hyes hcond
      rw [hm]
      rfl
    · rw [hno hcond]
      rfl

/-- Witness for C9: A pressed while Connected with the slot empty is enqueued; W
pressed on the next tick, while the slot still holds A, is dropped. -/
theorem C9_enqueue_iff_witness :
    grants (btn_tick .btn_tmr (pins_of [0])
      (run initial [StackReady, ConnectionOpened 7 0]).1).2 = [7] ∧
    (btn_tick .btn_tmr (pins_of [0, 1]) (run initial [StackReady, ConnectionOpened 7 0,
      .btn_tmr_expired (pins_of [0])]).1).1.pending_key = 0x04 :=
  ⟨((C9_enqueue_iff .btn_tmr (pins_of [0])
      (run initial [StackReady, ConnectionOpened 7 0]).1).2.2.1 (by decide)).2.2,
   ((C9_enqueue_iff .btn_tmr (pins_of [0, 1]) (run initial [StackReady, ConnectionOpened 7 0,
      .btn_tmr_expired (pins_of [0])]).1).2.2.2.1 (by decide)).2.1⟩

/-! ## Selecting grants and reports from the effects -/

theorem reports_append (a b : List Effect) : reports (a ++ b) = reports a ++ reports b := by
  induction a with
  | nil => rfl
  | cons x xs ih => cases x <;> simp [reports, ih]

theorem grants_append (a b : List Effect) : grants (a ++ b) = grants a ++ grants b := by
  induction a with
  | nil => rfl
  | cons x xs ih => cases x <;> simp [grants, ih]

/-! ## Pending slot and transmitted reports -/

theorem btn_tick_cases (ts : Timer) (g : Nat → Bool) (s : State) :
    (∃ m < 4, s.app_state = .APP_CONN ∧ s.pending_report = false ∧ rising_edge g s m ∧
      btn_tick ts g s = (enqueued ts g s m,
        [.watchdog_update, .request_can_send_now_event s.hid_cid,
         .run_loop_set_timer ts 10, .run_loop_add_timer ts])) ∨
    (¬ (s.app_state = .APP_CONN ∧ s.pending_report = false ∧ ∃ i < 4, rising_edge g s i) ∧
      btn_tick ts g s = (sampled ts g s,
        [.watchdog_update, .run_loop_set_timer ts 10, .run_loop_add_timer ts])) := by
  by_cases h : s.app_state = .APP_CONN ∧ s.pending_report = false ∧
      ∃ i < 4, rising_edge g s i
  · left
    obtain ⟨hc, hp, i, hi, hr⟩ := h
    have hex : ∃ i, i < 4 ∧ rising_edge g s i := ⟨i, hi, hr⟩
    have hmin : ∀ {j : Nat}, j < Nat.find hex → ¬ (j < 4 ∧ rising_edge g s j) :=
      fun hj => Nat.find_min hex hj
    obtain ⟨hm, hrm⟩ := Nat.find_spec hex
    refine ⟨Nat.find hex, hm, hc, hp, hrm, ?_⟩
    apply btn_tick_enqueue ts g s _ hc hp hm hrm
    intro j hj hrj
    exact hmin hj ⟨by omega, hrj⟩
  · right
    exact ⟨h, btn_tick_skip ts g s h⟩

theorem key_usage_mem (m : Nat) (hm : m < 4) : KEY_USAGE.getD m 0 ∈ KEY_USAGE := by
  interval_cases m <;> decide

theorem key_usage_bounds (k : Nat) (hk : k ∈ KEY_USAGE) : k ≠ 0 ∧ k < 256 := by
  simp only [KEY_USAGE, List.mem_cons, List.mem_singleton, List.not_mem_nil, or_false] at hk
  omega

theorem led_tick_quiet (ts : Timer) (s : State) :
    grants (led_tick ts s).2 = [] ∧ reports (led_tick ts s).2 = [] := by
  simp [led_tick, led_set, grants, reports]

theorem btn_tick_no_report (ts : Timer) (g : Nat → Bool) (s : State) :
    reports (btn_tick ts g s).2 = [] := by
  rcases btn_tick_cases ts g s with ⟨m, _, _, _, _, h⟩ | ⟨_, h⟩ <;> rw [h] <;> rfl

theorem btn_tick_quiet (ts : Timer) (g : Nat → Bool) (s : State)
    (hs : s.app_state ≠ .APP_CONN) :
    grants (btn_tick ts g s).2 = [] ∧ reports (btn_tick ts g s).2 = [] := by
  rw [btn_tick_skip ts g s (fun hc => hs hc.1)]
  exact ⟨rfl, rfl⟩

theorem pk_handler_quiet (type : PacketType) (ch : Nat) (pkt : HciEvent) (size : Nat)
    (s : State)
    (h : ¬ (type = .HCI_EVENT_PACKET ∧ pkt = .HCI_EVENT_HID_META .CAN_SEND_NOW)) :
    grants (pk_handler type ch pkt size s).2 = [] ∧
    reports (pk_handler type ch pkt size s).2 = [] ∧
    (pk_handler type ch pkt size s).1.pending_report = s.pending_report ∧
    (pk_handler type ch pkt size s).1.pending_key = s.pending_key := by
  cases type with
  | other => simp [pk_handler, grants, reports]
  | HCI_EVENT_PACKET =>
    cases pkt with
    | other => simp [pk_handler, grants, reports]
    | BTSTACK_EVENT_STATE st =>
      cases st <;>
        simp [pk_handler, led_blink_start, run_loop_remove_timer, run_loop_set_timer,
          run_loop_add_timer, grants, reports]
    | HCI_EVENT_HID_META sub =>
      cases sub with
      | other => simp [pk_handler, grants, reports]
      | CAN_SEND_NOW => exact absurd ⟨rfl, rfl⟩ h
      | CONNECTION_CLOSED =>
        simp [pk_handler, led_blink_start, run_loop_remove_timer, run_loop_set_timer,
          run_loop_add_timer, grants, reports]
      | CONNECTION_OPENED status cid =>
        by_cases hst : status = 0
        · simp [pk_handler, hst, led_on, led_set, run_loop_remove_timer, grants, reports]
        · simp [pk_handler, hst, led_blink_start, run_loop_remove_timer,
            run_loop_set_timer, run_loop_add_timer, grants, reports]

theorem step_no_report (s : State) (e : Event) (h : is_send_grant e = false) :
    reports (step s e).2 = [] := by
  cases e with
  | led_tmr_expired =>
    simp only [step]
    split
    · exact (led_tick_quiet _ _).2
    · rfl
  | btn_tmr_expired g =>
    simp only [step]
    split
    · exact btn_tick_no_report _ _ _
    · rfl
  | packet type ch pkt size =>
    apply (pk_handler_quiet type ch pkt size s _).2.1
    rintro ⟨rfl, rfl⟩
    simp [is_send_grant] at h

theorem run_no_report (evs : List Event) : ∀ s : State,
    (∀ e ∈ evs, is_send_grant e = false) → reports (run s evs).2 = [] := by
  induction evs with
  | nil => intro s _; rfl
  | cons e es ih =>
    intro s h
    have h1 := step_no_report s e (h e (List.mem_cons_self _ _))
    have h2 := ih (step s e).1 (fun x hx => h x (List.mem_cons_of_mem _ hx))
    simp only [run]
    rw [reports_append, h1, h2]
    rfl

theorem step_slot_inv (s : State) (e : Event) (hinv : slot_inv s) : slot_inv (step s e).1 := by
  cases e with
  | led_tmr_expired =>
    simp only [step]
    split
    · unfold slot_inv
      rw [(led_tick_app_state _ _).2.2.1, (led_tick_app_state _ _).2.2.2]
      simpa [slot_inv, run_loop_remove_timer] using hinv
    · exact hinv
  | btn_tmr_expired g =>
    simp only [step]
    split
    · rcases btn_tick_cases .btn_tmr g (run_loop_remove_timer .btn_tmr s) with
        ⟨m, hm, _, _, _, h⟩ | ⟨_, h⟩
      · rw [h]
        left
        exact ⟨(enqueued_fields _ _ _ _).1, by
          rw [(enqueued_fields _ _ _ _).2.1]; exact key_usage_mem m hm⟩
      · rw [h]
        unfold slot_inv
        rw [(sampled_fields _ _ _).1, (sampled_fields _ _ _).2.1]
        simpa [slot_inv, run_loop_remove_timer] using hinv
    · exact hinv
  | packet type ch pkt size =>
    simp only [step]
    by_cases hg : type = .HCI_EVENT_PACKET ∧ pkt = .HCI_EVENT_HID_META .CAN_SEND_NOW
    · obtain ⟨rfl, rfl⟩ := hg
      by_cases hocc : s.pending_report = true ∧ s.pending_key ≠ 0
      · rw [send_grant_occupied s ch size hocc.1 hocc.2]
        right
        exact ⟨rfl, rfl⟩
      · rw [send_grant_idle s ch size hocc]
        exact hinv
    · have h := pk_handler_quiet type ch pkt size s hg
      unfold slot_inv
      rw [h.2.2.1, h.2.2.2]
      exact hinv

theorem run_slot_inv (evs : List Event) : ∀ s : State, slot_inv s → slot_inv (run s evs).1 := by
  induction evs with
  | nil => intro s h; exact h
  | cons e es ih =>
    intro s h
    simp only [run]
    exact ih _ (step_slot_inv s e h)

theorem reachable_slot_inv (s : State) (h : Reachable s) : slot_inv s := by
  obtain ⟨evs, rfl⟩ := h
  exact run_slot_inv evs initial (Or.inr ⟨rfl, rfl⟩)

/-- Counterexample for C7: in the start state (Booting) a SendGrant transmits the
neutral report; in the Idle state reached by connecting, pressing A and
disconnecting, a SendGrant transmits the report of A and requests a grant. -/
theorem C7_counterexample :
    initial.app_state ≠ .APP_CONN ∧
    reports (step initial SendGrant).2 = [(0, [0xA1, 0x01, 0, 0, 0, 0, 0, 0, 0, 0])] ∧
    (run initial [StackReady, ConnectionOpened 7 0, .btn_tmr_expired (pins_of [0]),
      ConnectionClosed]).1.app_state = .APP_IDLE ∧
    reports (step (run initial [StackReady, ConnectionOpened 7 0,
      .btn_tmr_expired (pins_of [0]), ConnectionClosed]).1 SendGrant).2
      = [(0, [0xA1, 0x01, 0, 0, 0x04, 0, 0, 0, 0, 0])] ∧
    grants (step (run initial [StackReady, ConnectionOpened 7 0,
      .btn_tmr_expired (pins_of [0]), ConnectionClosed]).1 SendGrant).2 = [0] := by
  decide

/-- C7 (amended): in every state with DeviceState other than Connected, a sampling
tick with any sample, an indicator tick and every packet other than a SendGrant
transmit no report and request no send grant.  The SendGrant branch of the handler
does not read DeviceState: in every state it transmits exactly one report, and it
requests a further grant exactly when the slot holds a non-zero key. -/
theorem C7_quiet_unless_send_grant (s : State) (hs : s.app_state ≠ .APP_CONN) :
    (∀ ts gpio_get, grants (btn_tick ts gpio_get s).2 = [] ∧
      reports (btn_tick ts gpio_get s).2 = []) ∧
    (∀ ts, grants (led_tick ts s).2 = [] ∧ reports (led_tick ts s).2 = []) ∧
    (∀ type ch pkt size,
      ¬ (type = .HCI_EVENT_PACKET ∧ pkt = .HCI_EVENT_HID_META .CAN_SEND_NOW) →
      grants (pk_handler type ch pkt size s).2 = [] ∧
      reports (pk_handler type ch pkt size s).2 = []) ∧
    (∀ e, is_send_grant e = false →
      grants (step s e).2 = [] ∧ reports (step s e).2 = []) ∧
    (∀ ch size,
      (reports (pk_handler .HCI_EVENT_PACKET ch (.HCI_EVENT_HID_META .CAN_SEND_NOW)
        size s).2).length = 1 ∧
      (grants (pk_handler .HCI_EVENT_PACKET ch (.HCI_EVENT_HID_META .CAN_SEND_NOW)
        size s).2 ≠ [] ↔ (s.pending_report = true ∧ s.pending_key ≠ 0))) := by
  refine ⟨fun ts g => btn_tick_quiet ts g s hs, fun ts => led_tick_quiet ts s, ?_, ?_, ?_⟩
  · intro type ch pkt size h
    exact ⟨(pk_handler_quiet type ch pkt size s h).1, (pk_handler_quiet type ch pkt size s h).2.1⟩
  · intro e he
    cases e with
    | led_tmr_expired =>
      simp only [step]
      split
      · exact led_tick_quiet _ _
      · exact ⟨rfl, rfl⟩
    | btn_tmr_expired g =>
      simp only [step]
      split
      · exact btn_tick_quiet _ _ _ (by simpa [run_loop_remove_timer] using hs)
      · exact ⟨rfl, rfl⟩
    | packet type ch pkt size =>
      have h : ¬ (type = .HCI_EVENT_PACKET ∧ pkt = .HCI_EVENT_HID_META .CAN_SEND_NOW) := by
        rintro ⟨rfl, rfl⟩
        simp [is_send_grant] at he
      exact ⟨(pk_handler_quiet type ch pkt size s h).1,
        (pk_handler_quiet type ch pkt size s h).2.1⟩
  · intro ch size
    by_cases hocc : s.pending_report = true ∧ s.pending_key ≠ 0
    · rw [send_grant_occupied s ch size hocc.1 hocc.2]
      simp [reports, grants, hocc]
    · rw [send_grant_idle s ch size hocc]
      simp only [reports, grants, List.length_singleton, ne_eq, not_true_eq_false, false_iff,
        true_and]
      exact hocc

/-- Witness for C7 (amended): a sampling tick with A pressed in the start state. -/
theorem C7_quiet_unless_send_grant_witness :
    grants (btn_tick .btn_tmr (pins_of [0]) initial).2 = [] ∧
    reports (btn_tick .btn_tmr (pins_of [0]) initial).2 = [] :=
  (C7_quiet_unless_send_grant initial (by decide)).1 .btn_tmr (pins_of [0])

theorem send_grant_reports (s : State) (ch size : Nat) (hk : s.pending_key < 256) :
    reports (pk_handler .HCI_EVENT_PACKET ch (.HCI_EVENT_HID_META .CAN_SEND_NOW) size s).2 =
      [(s.hid_cid, [0xA1, 0x01, 0x00, 0x00,
        if s.pending_report = true then s.pending_key else 0, 0, 0, 0, 0, 0])] := by
  by_cases hocc : s.pending_report = true ∧ s.pending_key ≠ 0
  · rw [send_grant_occupied s ch size hocc.1 hocc.2]
    simp [reports, hocc.1, Nat.mod_eq_of_lt hk]
  · rw [send_grant_idle s ch size hocc]
    by_cases hp : s.pending_report = true
    · have h0 : s.pending_key = 0 := by
        by_contra hne
        exact hocc ⟨hp, hne⟩
      simp [reports, hp, h0]
    · simp [reports, hp]

theorem slot_inv_key (s : State) (h : slot_inv s) :
    s.pending_key < 256 ∧
    (if s.pending_report = true then s.pending_key else 0) ∈ [0x00, 0x04, 0x1A, 0x16, 0x07] := by
  rcases h with ⟨hp, hk⟩ | ⟨hp, hk⟩
  · refine ⟨(key_usage_bounds _ hk).2, ?_⟩
    rw [if_pos hp]
    exact List.mem_cons_of_mem _ hk
  · rw [hk, hp]
    exact ⟨by decide, by decide⟩

/-- C8: the SendGrant branch of the handler transmits exactly one report, the ten
bytes `A1 01 00 00 k 00 00 00 00 00` addressed to the stored handle, where `k` is
the pending key when the slot is occupied and `0x00` when it is empty (for every
state whose `pending_key` is a `uint8_t` value); and in every reachable state `k`
is one of `0x00, 0x04, 0x1A, 0x16, 0x07`. -/
theorem C8_report_bytes :
    (∀ (s : State) (ch size : Nat), s.pending_key < 256 →
      reports (pk_handler .HCI_EVENT_PACKET ch (.HCI_EVENT_HID_META .CAN_SEND_NOW) size s).2 =
        [(s.hid_cid, [0xA1, 0x01, 0x00, 0x00,
          if s.pending_report = true then s.pending_key else 0, 0, 0, 0, 0, 0])]) ∧
    (∀ (s : State) (ch size : Nat), Reachable s →
      ∃ k ∈ [0x00, 0x04, 0x1A, 0x16, 0x07],
        k = (if s.pending_report = true then s.pending_key else 0) ∧
        reports (pk_handler .HCI_EVENT_PACKET ch (.HCI_EVENT_HID_META .CAN_SEND_NOW) size s).2 =
          [(s.hid_cid, [0xA1, 0x01, 0x00, 0x00, k, 0, 0, 0, 0, 0])] ∧
        (reports (pk_handler .HCI_EVENT_PACKET ch (.HCI_EVENT_HID_META .CAN_SEND_NOW)
          size s).2).map (fun r => r.2.length) = [10]) := by
  refine ⟨send_grant_reports, ?_⟩
  intro s ch size hr
  have hk := slot_inv_key s (reachable_slot_inv s hr)
  refine ⟨_, hk.2, rfl, send_grant_reports s ch size hk.1, ?_⟩
  rw [send_grant_reports s ch size hk.1]
  rfl

/-- Witness for C8: the grant that follows a press of D while connected with
handle 7 carries usage code 0x07. -/
theorem C8_report_bytes_witness :
    reports (pk_handler .HCI_EVENT_PACKET 0 (.HCI_EVENT_HID_META .CAN_SEND_NOW) 0
      (run initial [StackReady, ConnectionOpened 7 0, .btn_tmr_expired (pins_of [3])]).1).2 =
      [(7, [0xA1, 0x01, 0x00, 0x00, 0x07, 0, 0, 0, 0, 0])] ∧
    (if (run initial [StackReady, ConnectionOpened 7 0,
          .btn_tmr_expired (pins_of [3])]).1.pending_report = true
      then (run initial [StackReady, ConnectionOpened 7 0,
          .btn_tmr_expired (pins_of [3])]).1.pending_key else 0) ∈ [0x00, 0x04, 0x1A, 0x16, 0x07] :=
  ⟨C8_report_bytes.1
    (run initial [StackReady, ConnectionOpened 7 0, .btn_tmr_expired (pins_of [3])]).1 0 0
    (by decide),
   by
    obtain ⟨k, hk, hkeq, _⟩ := C8_report_bytes.2
      (run initial [StackReady, ConnectionOpened 7 0, .btn_tmr_expired (pins_of [3])]).1 0 0
      ⟨[StackReady, ConnectionOpened 7 0, .btn_tmr_expired (pins_of [3])], rfl⟩
    rw [← hkeq]
    exact hk⟩

theorem run_cons (s : State) (e : Event) (es : List Event) :
    run s (e :: es) = ((run (step s e).1 es).1, (step s e).2 ++ (run (step s e).1 es).2) := rfl

theorem run_append (a b : List Event) : ∀ s : State,
    run s (a ++ b) = ((run (run s a).1 b).1, (run s a).2 ++ (run (run s a).1 b).2) := by
  induction a with
  | nil => intro s; simp [run]
  | cons e es ih =>
    intro s
    rw [List.cons_append, run_cons, run_cons, ih]
    simp only [List.append_assoc]

theorem run_single (s : State) (e : Event) : run s [e] = step s e := by
  rw [run_cons]
  simp [run]

/-- Counterexample for C6: connected with handle 7, A is pressed and its report goes
out on the first grant; W is pressed before the second grant arrives, so the
second report is the key-down of W.  The key bytes transmitted are 04, 1A, 00: the
report of A is not followed by a neutral report and a key-down follows a key-down. -/
theorem C6_counterexample :
    key_bytes (run initial [StackReady, ConnectionOpened 7 0, .btn_tmr_expired (pins_of [0]),
      SendGrant, .btn_tmr_expired (pins_of [0, 1]), SendGrant, SendGrant]).2
      = [0x04, 0x1A, 0x00] := by
  decide

/-- C6 (amended): take any state reached from the start state in which the slot is
occupied; its key `k` is one of the four usage codes.  The next SendGrant
transmits exactly one report, carrying `k`, to the stored handle.  Events other
than a SendGrant transmit nothing, and the SendGrant after them transmits exactly
one report: the neutral report when the slot is still empty at that moment, and the
key-down report of the newly enqueued key when a sampling tick has filled the slot
in between.  So the reports of the whole stretch are the report of `k` followed by
that one. -/
theorem C6_key_report_then_next (pre mid : List Event) (ch size ch2 size2 : Nat)
    (hocc : (run initial pre).1.pending_report = true)
    (hmid : ∀ e ∈ mid, is_send_grant e = false) :
    (run initial pre).1.pending_key ∈ KEY_USAGE ∧
    reports (run (run initial pre).1
      (.packet .HCI_EVENT_PACKET ch (.HCI_EVENT_HID_META .CAN_SEND_NOW) size :: (mid ++
        [.packet .HCI_EVENT_PACKET ch2 (.HCI_EVENT_HID_META .CAN_SEND_NOW) size2]))).2 =
      [((run initial pre).1.hid_cid, report_bytes (run initial pre).1.pending_key),
       ((run (step (run initial pre).1
            (.packet .HCI_EVENT_PACKET ch (.HCI_EVENT_HID_META .CAN_SEND_NOW) size)).1 mid).1.hid_cid,
        report_bytes
          (if (run (step (run initial pre).1
                (.packet .HCI_EVENT_PACKET ch (.HCI_EVENT_HID_META .CAN_SEND_NOW) size)).1
                mid).1.pending_report = true
           then (run (step (run initial pre).1
                (.packet .HCI_EVENT_PACKET ch (.HCI_EVENT_HID_META .CAN_SEND_NOW) size)).1
                mid).1.pending_key
           else 0))] := by
  have hinv := reachable_slot_inv (run initial pre).1 ⟨pre, rfl⟩
  have hkey : (run initial pre).1.pending_key ∈ KEY_USAGE := by
    rcases hinv with ⟨_, hk⟩ | ⟨hp, _⟩
    · exact hk
    · rw [hocc] at hp; exact Bool.noConfusion hp
  refine ⟨hkey, ?_⟩
  have hb := key_usage_bounds _ hkey
  generalize hs : (run initial pre).1 = s at *
  have h1 : step s (.packet .HCI_EVENT_PACKET ch (.HCI_EVENT_HID_META .CAN_SEND_NOW) size) =
      ({ s with pending_key := 0, pending_report := false },
       [.send_interrupt_message s.hid_cid [0xA1, 0x01, 0, 0, s.pending_key % 256, 0, 0, 0, 0, 0],
        .request_can_send_now_event s.hid_cid]) := by
    simp only [step]
    exact send_grant_occupied s ch size hocc hb.1
  have hreach2 : Reachable (run (step s
      (.packet .HCI_EVENT_PACKET ch (.HCI_EVENT_HID_META .CAN_SEND_NOW) size)).1 mid).1 := by
    refine ⟨pre ++ .packet .HCI_EVENT_PACKET ch (.HCI_EVENT_HID_META .CAN_SEND_NOW) size :: mid,
      ?_⟩
    rw [run_append, hs, run_cons]
  have hk2 := (slot_inv_key _ (reachable_slot_inv _ hreach2)).1
  have h2 : reports (step (run (step s
      (.packet .HCI_EVENT_PACKET ch (.HCI_EVENT_HID_META .CAN_SEND_NOW) size)).1 mid).1
      (.packet .HCI_EVENT_PACKET ch2 (.HCI_EVENT_HID_META .CAN_SEND_NOW) size2)).2 = _ :=
    send_grant_reports _ ch2 size2 hk2
  rw [run_cons, run_append, run_single]
  simp only [reports_append, run_no_report mid _ hmid, List.nil_append, h2]
  rw [h1]
  simp [reports, report_bytes, Nat.mod_eq_of_lt hb.2]

/-- Witness for C6 (amended): A is pressed while connected with handle 7; its report
goes out, a sampling tick with A still held passes, and the next grant
carries the neutral report. -/
theorem C6_key_report_then_next_witness :
    reports (run (run initial [StackReady, ConnectionOpened 7 0,
        .btn_tmr_expired (pins_of [0])]).1
      (.packet .HCI_EVENT_PACKET 0 (.HCI_EVENT_HID_META .CAN_SEND_NOW) 0 ::
        ([.btn_tmr_expired (pins_of [0])] ++
        [.packet .HCI_EVENT_PACKET 0 (.HCI_EVENT_HID_META .CAN_SEND_NOW) 0]))).2 =
      [(7, report_bytes 0x04), (7, report_bytes 0)] :=
  (C6_key_report_then_next [StackReady, ConnectionOpened 7 0, .btn_tmr_expired (pins_of [0])]
    [.btn_tmr_expired (pins_of [0])] 0 0 0 0 (by decide) (by decide)).2

/-! ## The scenario of section 8 -/

/-- C10: the scenario of section 8 on the code.  From the start state StackReady
gives Idle with the blink timer armed; ConnectionOpened(handle 7, status 0) gives
Connected with handle 7, the indicator on and the blink timer out of the run loop;
a sampling tick with only A newly pressed leaves the slot holding 0x04, with one
grant requested for handle 7 and no report sent; the next SendGrant transmits
`A1 01 00 00 04 00 00 00 00 00` to handle 7, empties the slot and requests another
grant; the following SendGrant transmits `A1 01 00 00 00 00 00 00 00 00`;
ConnectionClosed then gives Idle with handle 0 and the blink timer armed again. -/
theorem C10_scenario :
    initial.app_state = .APP_BOOT ∧ initial.hid_cid = 0 ∧
    (run initial [StackReady]).1.app_state = .APP_IDLE ∧
    (run initial [StackReady]).1.led_tmr.queued = true ∧
    (run initial [StackReady, ConnectionOpened 7 0]).1.app_state = .APP_CONN ∧
    (run initial [StackReady, ConnectionOpened 7 0]).1.hid_cid = 7 ∧
    (run initial [StackReady, ConnectionOpened 7 0]).1.led_pin = true ∧
    (run initial [StackReady, ConnectionOpened 7 0]).1.led_tmr.queued = false ∧
    (run initial [StackReady, ConnectionOpened 7 0]).1.pending_report = false ∧
    (run initial [StackReady, ConnectionOpened 7 0,
      .btn_tmr_expired (pins_of [0])]).1.pending_report = true ∧
    (run initial [StackReady, ConnectionOpened 7 0,
      .btn_tmr_expired (pins_of [0])]).1.pending_key = 0x04 ∧
    grants (step (run initial [StackReady, ConnectionOpened 7 0]).1
      (.btn_tmr_expired (pins_of [0]))).2 = [7] ∧
    reports (step (run initial [StackReady, ConnectionOpened 7 0]).1
      (.btn_tmr_expired (pins_of [0]))).2 = [] ∧
    reports (step (run initial [StackReady, ConnectionOpened 7 0,
      .btn_tmr_expired (pins_of [0])]).1 SendGrant).2
      = [(7, [0xA1, 0x01, 0x00, 0x00, 0x04, 0x00, 0x00, 0x00, 0x00, 0x00])] ∧
    grants (step (run initial [StackReady, ConnectionOpened 7 0,
      .btn_tmr_expired (pins_of [0])]).1 SendGrant).2 = [7] ∧
    (run initial [StackReady, ConnectionOpened 7 0, .btn_tmr_expired (pins_of [0]),
      SendGrant]).1.pending_report = false ∧
    (run initial [StackReady, ConnectionOpened 7 0, .btn_tmr_expired (pins_of [0]),
      SendGrant]).1.pending_key = 0 ∧
    reports (step (run initial [StackReady, ConnectionOpened 7 0,
      .btn_tmr_expired (pins_of [0]), SendGrant]).1 SendGrant).2
      = [(7, [0xA1, 0x01, 0x00, 0x00, 0x00, 0x00, 0x00, 0x00, 0x00, 0x00])] ∧
    (run initial [StackReady, ConnectionOpened 7 0, .btn_tmr_expired (pins_of [0]),
      SendGrant, SendGrant, ConnectionClosed]).1.app_state = .APP_IDLE ∧
    (run initial [StackReady, ConnectionOpened 7 0, .btn_tmr_expired (pins_of [0]),
      SendGrant, SendGrant, ConnectionClosed]).1.hid_cid = 0 ∧
    (run initial [StackReady, ConnectionOpened 7 0, .btn_tmr_expired (pins_of [0]),
      SendGrant, SendGrant, ConnectionClosed]).1.led_tmr = { timeout := 0, queued := true } ∧
    reports (run initial [StackReady, ConnectionOpened 7 0, .btn_tmr_expired (pins_of [0]),
      SendGrant, SendGrant, ConnectionClosed]).2
      = [(7, [0xA1, 0x01, 0x00, 0x00, 0x04, 0x00, 0x00, 0x00, 0x00, 0x00]),
         (7, [0xA1, 0x01, 0x00, 0x00, 0x00, 0x00, 0x00, 0x00, 0x00, 0x00])] := by
  decide

/-! ## Reconnection and held buttons -/

/-- C11 (the code at the failing input): connect with handle 7, press A, lose the
connection before the grant arrives, reconnect with handle 8.  Right after the
successful ConnectionOpened the slot is still occupied by the key of A, and a
sampling tick on which W is newly pressed enqueues nothing and requests no grant. -/
theorem C11_slot_survives_reconnection :
    (run initial [StackReady, ConnectionOpened 7 0, .btn_tmr_expired (pins_of [0]),
      ConnectionClosed, ConnectionOpened 8 0]).1.app_state = .APP_CONN ∧
    (run initial [StackReady, ConnectionOpened 7 0, .btn_tmr_expired (pins_of [0]),
      ConnectionClosed, ConnectionOpened 8 0]).1.pending_report = true ∧
    (run initial [StackReady, ConnectionOpened 7 0, .btn_tmr_expired (pins_of [0]),
      ConnectionClosed, ConnectionOpened 8 0]).1.pending_key = 0x04 ∧
    rising_edge (pins_of [0, 1]) (run initial [StackReady, ConnectionOpened 7 0,
      .btn_tmr_expired (pins_of [0]), ConnectionClosed, ConnectionOpened 8 0]).1 1 ∧
    grants (step (run initial [StackReady, ConnectionOpened 7 0,
      .btn_tmr_expired (pins_of [0]), ConnectionClosed, ConnectionOpened 8 0]).1
      (.btn_tmr_expired (pins_of [0, 1]))).2 = [] ∧
    enqueued_keys (run initial [StackReady, ConnectionOpened 7 0,
      .btn_tmr_expired (pins_of [0]), ConnectionClosed, ConnectionOpened 8 0]).1
      [.btn_tmr_expired (pins_of [0, 1]), .btn_tmr_expired (pins_of []),
       .btn_tmr_expired (pins_of [2])] = [] := by
  decide

theorem led_tick_last_btn_state (ts : Timer) (s : State) :
    (led_tick ts s).1.last_btn_state = s.last_btn_state := by
  simp [led_tick, led_set, run_loop_set_timer, run_loop_add_timer]

theorem pk_handler_last_btn_state (type : PacketType) (ch : Nat) (pkt : HciEvent) (size : Nat)
    (s : State) : (pk_handler type ch pkt size s).1.last_btn_state = s.last_btn_state := by
  cases type with
  | other => simp [pk_handler]
  | HCI_EVENT_PACKET =>
    cases pkt with
    | other => simp [pk_handler]
    | BTSTACK_EVENT_STATE st =>
      cases st <;>
        simp [pk_handler, led_blink_start, run_loop_remove_timer, run_loop_set_timer,
          run_loop_add_timer]
    | HCI_EVENT_HID_META sub =>
      cases sub with
      | other => simp [pk_handler]
      | CAN_SEND_NOW =>
        by_cases hocc : s.pending_report = true ∧ s.pending_key ≠ 0
        · rw [send_grant_occupied s ch size hocc.1 hocc.2]
        · rw [send_grant_idle s ch size hocc]
      | CONNECTION_CLOSED =>
        simp [pk_handler, led_blink_start, run_loop_remove_timer, run_loop_set_timer,
          run_loop_add_timer]
      | CONNECTION_OPENED status cid =>
        by_cases hst : status = 0
        · simp [pk_handler, hst, led_on, led_set, run_loop_remove_timer]
        · simp [pk_handler, hst, led_blink_start, run_loop_remove_timer,
            run_loop_set_timer, run_loop_add_timer]

theorem key_usage_inj : ∀ m < 4, ∀ i < 4, KEY_USAGE.getD m 0 = KEY_USAGE.getD i 0 → m = i := by
  decide

theorem btn_tick_last_btn_state (ts : Timer) (g : Nat → Bool) (s : State) :
    (btn_tick ts g s).1.last_btn_state = read_buttons g := by
  rcases btn_tick_cases ts g s with ⟨m, _, _, _, _, h⟩ | ⟨_, h⟩
  · rw [h]; exact (enqueued_fields ts g s m).2.2.1
  · rw [h]; exact (sampled_fields ts g s).2.2.1

theorem step_held (i : Nat) (hi : i < 4) (s : State) (e : Event)
    (hl : s.last_btn_state.testBit i = true) (he : held i e = true) :
    (step s e).1.last_btn_state.testBit i = true ∧ KEY_USAGE.getD i 0 ∉ enqueued_by s e := by
  cases e with
  | led_tmr_expired =>
    refine ⟨?_, by simp [enqueued_by]⟩
    simp only [step]
    split
    · rw [led_tick_last_btn_state]
      simpa [run_loop_remove_timer] using hl
    · exact hl
  | packet type ch pkt size =>
    refine ⟨?_, by simp [enqueued_by]⟩
    simp only [step]
    rw [pk_handler_last_btn_state]
    exact hl
  | btn_tmr_expired g =>
    have hp : btn_pressed g i = true := he
    simp only [enqueued_by, step]
    split
    · have hl2 : (run_loop_remove_timer .btn_tmr s).last_btn_state.testBit i = true := by
        simpa [run_loop_remove_timer] using hl
      refine ⟨?_, ?_⟩
      · rw [btn_tick_last_btn_state, read_buttons_testBit g i hi]
        exact hp
      · rcases btn_tick_cases .btn_tmr g (run_loop_remove_timer .btn_tmr s) with
          ⟨m, hm, _, _, hr, h⟩ | ⟨_, h⟩
        · rw [h]
          have hmi : m ≠ i := by
            rintro rfl
            rw [hr.2] at hl2
            exact Bool.noConfusion hl2
          have hne : KEY_USAGE.getD i 0 ≠ KEY_USAGE.getD m 0 :=
            fun heq => hmi (key_usage_inj m hm i hi heq.symm)
          simpa [grants, (enqueued_fields _ _ _ _).2.1] using hne
        · rw [h]
          simp [grants]
    · exact ⟨hl, by simp [grants]⟩

theorem run_held (i : Nat) (hi : i < 4) (evs : List Event) : ∀ s : State,
    s.last_btn_state.testBit i = true → evs.all (held i) = true →
    KEY_USAGE.getD i 0 ∉ enqueued_keys s evs := by
  induction evs with
  | nil => intro s _ _; simp [enqueued_keys]
  | cons e es ih =>
    intro s hl hall
    simp only [List.all_cons, Bool.and_eq_true] at hall
    have h := step_held i hi s e hl hall.1
    simp only [enqueued_keys, List.mem_append, not_or]
    exact ⟨h.2, ih _ h.1 hall.2⟩

/-- C12: every sampling tick stores its sample as the previous mask, whatever
DeviceState and the slot are.  Hence, when button `i` is sampled as pressed by a
tick taken while the device is not Connected (a tick that enqueues nothing) and
by every later tick, no tick of the events that follow, a successful
ConnectionOpened among them, enqueues the key of button `i`. -/
theorem C12_held_button_never_enqueued (ts : Timer) (gpio_get : Nat → Bool) (s : State)
    (i : Nat) (evs : List Event) (hi : i < 4) (hnc : s.app_state ≠ .APP_CONN)
    (hpressed : btn_pressed gpio_get i = true) (hheld : evs.all (held i) = true) :
    (∀ (ts2 : Timer) (g2 : Nat → Bool) (s2 : State),
      (btn_tick ts2 g2 s2).1.last_btn_state = read_buttons g2) ∧
    grants (btn_tick ts gpio_get s).2 = [] ∧
    KEY_USAGE.getD i 0 ∉ enqueued_keys (btn_tick ts gpio_get s).1 evs := by
  refine ⟨btn_tick_last_btn_state, (btn_tick_quiet ts gpio_get s hnc).1, ?_⟩
  apply run_held i hi evs _ _ hheld
  rw [btn_tick_last_btn_state, read_buttons_testBit gpio_get i hi]
  exact hpressed

/-- Witness for C12: A is held from a tick taken in the Idle state on; after the
connection opens, the ticks that follow enqueue W but never A. -/
theorem C12_held_button_never_enqueued_witness :
    KEY_USAGE.getD 0 0 ∉ enqueued_keys
      (btn_tick .btn_tmr (pins_of [0]) (run initial [StackReady]).1).1
      [ConnectionOpened 7 0, .btn_tmr_expired (pins_of [0]),
       .btn_tmr_expired (pins_of [0, 1]), SendGrant, .btn_tmr_expired (pins_of [0])] :=
  (C12_held_button_never_enqueued .btn_tmr (pins_of [0]) (run initial [StackReady]).1 0
    [ConnectionOpened 7 0, .btn_tmr_expired (pins_of [0]),
     .btn_tmr_expired (pins_of [0, 1]), SendGrant, .btn_tmr_expired (pins_of [0])]
    (by decide) (by decide) (by decide) (by decide)).2.2

/-! ## The two periodic ticks -/

theorem btn_after_led (g : Nat → Bool) (s : State) :
    btn_tick .btn_tmr g (led_tick .led_tmr s).1 =
      ((led_tick .led_tmr (btn_tick .btn_tmr g s).1).1, (btn_tick .btn_tmr g s).2) := by
  simp only [btn_tick, led_tick, led_set, run_loop_set_timer, run_loop_add_timer,
    State.setTimerSource, State.timer]
  split
  · split <;> rfl
  · rfl

theorem led_after_btn (g : Nat → Bool) (s : State) :
    (led_tick .led_tmr (btn_tick .btn_tmr g s).1).2 = (led_tick .led_tmr s).2 := by
  simp only [btn_tick, led_tick, led_set, run_loop_set_timer, run_loop_add_timer,
    State.setTimerSource, State.timer]
  split
  · split <;> rfl
  · rfl

theorem step_led_queued (s : State) (h : s.led_tmr.queued = true) :
    step s .led_tmr_expired = led_tick .led_tmr (run_loop_remove_timer .led_tmr s) := by
  simp [step, h]

theorem step_led_idle (s : State) (h : s.led_tmr.queued = false) :
    step s .led_tmr_expired = (s, []) := by
  simp [step, h]

theorem step_btn_queued (g : Nat → Bool) (s : State) (h : s.btn_tmr.queued = true) :
    step s (.btn_tmr_expired g) = btn_tick .btn_tmr g (run_loop_remove_timer .btn_tmr s) := by
  simp [step, h]

theorem step_btn_idle (g : Nat → Bool) (s : State) (h : s.btn_tmr.queued = false) :
    step s (.btn_tmr_expired g) = (s, []) := by
  simp [step, h]

theorem btn_tick_led_fields (g : Nat → Bool) (s : State) :
    (btn_tick .btn_tmr g s).1.led_tmr = s.led_tmr ∧
    (btn_tick .btn_tmr g s).1.led_state = s.led_state ∧
    (btn_tick .btn_tmr g s).1.led_pin = s.led_pin := by
  rcases btn_tick_cases .btn_tmr g s with ⟨m, _, _, _, _, h⟩ | ⟨_, h⟩ <;> rw [h] <;>
    simp [enqueued, sampled, run_loop_set_timer, run_loop_add_timer, State.setTimerSource]

theorem led_tick_btn_tmr (s : State) : (led_tick .led_tmr s).1.btn_tmr = s.btn_tmr := by
  simp [led_tick, led_set, run_loop_set_timer, run_loop_add_timer, State.setTimerSource]

theorem btn_tick_remove_led (g : Nat → Bool) (s : State) :
    btn_tick .btn_tmr g (run_loop_remove_timer .led_tmr s) =
      (run_loop_remove_timer .led_tmr (btn_tick .btn_tmr g s).1, (btn_tick .btn_tmr g s).2) := by
  simp only [btn_tick, run_loop_remove_timer, run_loop_set_timer, run_loop_add_timer,
    State.setTimerSource, State.timer]
  split
  · split <;> rfl
  · rfl

theorem led_tick_remove_btn (s : State) :
    led_tick .led_tmr (run_loop_remove_timer .btn_tmr s) =
      (run_loop_remove_timer .btn_tmr (led_tick .led_tmr s).1, (led_tick .led_tmr s).2) := rfl

theorem step_btn_after_led (g : Nat → Bool) (s : State) :
    step (step s .led_tmr_expired).1 (.btn_tmr_expired g) =
      ((step (step s (.btn_tmr_expired g)).1 .led_tmr_expired).1,
       (step s (.btn_tmr_expired g)).2) := by
  cases hl : s.led_tmr.queued <;> cases hb : s.btn_tmr.queued
  · rw [step_led_idle s hl, step_btn_idle g s hb, step_led_idle s hl]
  · rw [step_led_idle s hl, step_btn_queued g s hb]
    have hq : (btn_tick .btn_tmr g (run_loop_remove_timer .btn_tmr s)).1.led_tmr.queued
        = false := by
      rw [(btn_tick_led_fields g _).1]; exact hl
    rw [step_led_idle _ hq]
  · rw [step_led_queued s hl, step_btn_idle g s hb, step_led_queued s hl]
    have hq : (led_tick .led_tmr (run_loop_remove_timer .led_tmr s)).1.btn_tmr.queued
        = false := by
      rw [led_tick_btn_tmr]; exact hb
    rw [step_btn_idle g _ hq]
  · rw [step_led_queued s hl, step_btn_queued g s hb]
    have hq1 : (led_tick .led_tmr (run_loop_remove_timer .led_tmr s)).1.btn_tmr.queued
        = true := by
      rw [led_tick_btn_tmr]; exact hb
    have hq2 : (btn_tick .btn_tmr g (run_loop_remove_timer .btn_tmr s)).1.led_tmr.queued
        = true := by
      rw [(btn_tick_led_fields g _).1]; exact hl
    rw [step_btn_queued g _ hq1, step_led_queued _ hq2]
    have hD : run_loop_remove_timer .btn_tmr
          (led_tick .led_tmr (run_loop_remove_timer .led_tmr s)).1 =
        (led_tick .led_tmr
          (run_loop_remove_timer .btn_tmr (run_loop_remove_timer .led_tmr s))).1 := by
      rw [led_tick_remove_btn]
    have hC1 : run_loop_remove_timer .led_tmr
          (btn_tick .btn_tmr g (run_loop_remove_timer .btn_tmr s)).1 =
        (btn_tick .btn_tmr g
          (run_loop_remove_timer .btn_tmr (run_loop_remove_timer .led_tmr s))).1 := by
      rw [show run_loop_remove_timer .btn_tmr (run_loop_remove_timer .led_tmr s) =
        run_loop_remove_timer .led_tmr (run_loop_remove_timer .btn_tmr s) from rfl,
        btn_tick_remove_led]
    have hC2 : (btn_tick .btn_tmr g (run_loop_remove_timer .btn_tmr s)).2 =
        (btn_tick .btn_tmr g
          (run_loop_remove_timer .btn_tmr (run_loop_remove_timer .led_tmr s))).2 := by
      rw [show run_loop_remove_timer .btn_tmr (run_loop_remove_timer .led_tmr s) =
        run_loop_remove_timer .led_tmr (run_loop_remove_timer .btn_tmr s) from rfl,
        btn_tick_remove_led]
    rw [hD, hC1, hC2, btn_after_led]

theorem step_led_after_btn (g : Nat → Bool) (s : State) :
    (step (step s (.btn_tmr_expired g)).1 .led_tmr_expired).2 = (step s .led_tmr_expired).2 := by
  cases hl : s.led_tmr.queued <;> cases hb : s.btn_tmr.queued
  · rw [step_btn_idle g s hb, step_led_idle s hl]
  · rw [step_btn_queued g s hb, step_led_idle s hl]
    have hq : (btn_tick .btn_tmr g (run_loop_remove_timer .btn_tmr s)).1.led_tmr.queued
        = false := by
      rw [(btn_tick_led_fields g _).1]; exact hl
    rw [step_led_idle _ hq]
  · rw [step_btn_idle g s hb]
  · rw [step_btn_queued g s hb, step_led_queued s hl]
    have hq2 : (btn_tick .btn_tmr g (run_loop_remove_timer .btn_tmr s)).1.led_tmr.queued
        = true := by
      rw [(btn_tick_led_fields g _).1]; exact hl
    rw [step_led_queued _ hq2]
    have hC1 : run_loop_remove_timer .led_tmr
          (btn_tick .btn_tmr g (run_loop_remove_timer .btn_tmr s)).1 =
        (btn_tick .btn_tmr g
          (run_loop_remove_timer .btn_tmr (run_loop_remove_timer .led_tmr s))).1 := by
      rw [show run_loop_remove_timer .btn_tmr (run_loop_remove_timer .led_tmr s) =
        run_loop_remove_timer .led_tmr (run_loop_remove_timer .btn_tmr s) from rfl,
        btn_tick_remove_led]
    rw [hC1, led_after_btn, led_tick_remove_btn]

theorem run_pair (s : State) (a b : Event) :
    run s [a, b] = ((step (step s a).1 b).1, (step s a).2 ++ (step (step s a).1 b).2) := by
  rw [run_cons, run_single]

/-- C13: the order of the two periodic ticks does not matter.  For every state and
every button sample, the indicator tick followed by the sampling tick leaves the
same state as the sampling tick followed by the indicator tick, and the calls
emitted in the two orders are the same up to their order.  This holds for the two
callbacks called on their own timers and for the two expiries taken through the
run loop, whichever of the timers are armed. -/
theorem C13_tick_order_irrelevant (gpio_get : Nat → Bool) (s : State) :
    (btn_tick .btn_tmr gpio_get (led_tick .led_tmr s).1).1 =
      (led_tick .led_tmr (btn_tick .btn_tmr gpio_get s).1).1 ∧
    List.Perm
      ((led_tick .led_tmr s).2 ++ (btn_tick .btn_tmr gpio_get (led_tick .led_tmr s).1).2)
      ((btn_tick .btn_tmr gpio_get s).2 ++
        (led_tick .led_tmr (btn_tick .btn_tmr gpio_get s).1).2) ∧
    (run s [.led_tmr_expired, .btn_tmr_expired gpio_get]).1 =
      (run s [.btn_tmr_expired gpio_get, .led_tmr_expired]).1 ∧
    List.Perm (run s [.led_tmr_expired, .btn_tmr_expired gpio_get]).2
      (run s [.btn_tmr_expired gpio_get, .led_tmr_expired]).2 := by
  refine ⟨?_, ?_, ?_, ?_⟩
  · rw [btn_after_led]
  · rw [btn_after_led, led_after_btn]
    exact List.perm_append_comm
  · rw [run_pair, run_pair, step_btn_after_led]
  · rw [run_pair, run_pair, step_btn_after_led, step_led_after_btn]
    exact List.perm_append_comm

/-! ## Indicator -/

theorem pk_handler_led_inv (type : PacketType) (ch : Nat) (pkt : HciEvent) (size : Nat)
    (s : State) (hinv : led_inv s) : led_inv (pk_handler type ch pkt size s).1 := by
  unfold led_inv at *
  cases type with
  | other => simpa [pk_handler] using hinv
  | HCI_EVENT_PACKET =>
    cases pkt with
    | other => simpa [pk_handler] using hinv
    | BTSTACK_EVENT_STATE st =>
      cases st with
      | other => simpa [pk_handler] using hinv
      | HCI_STATE_WORKING =>
        simp [pk_handler, led_blink_start, run_loop_remove_timer, run_loop_set_timer,
          run_loop_add_timer]
    | HCI_EVENT_HID_META sub =>
      cases sub with
      | other => simpa [pk_handler] using hinv
      | CAN_SEND_NOW =>
        by_cases hocc : s.pending_report = true ∧ s.pending_key ≠ 0
        · rw [send_grant_occupied s ch size hocc.1 hocc.2]
          exact hinv
        · rw [send_grant_idle s ch size hocc]
          exact hinv
      | CONNECTION_CLOSED =>
        simp [pk_handler, led_blink_start, run_loop_remove_timer, run_loop_set_timer,
          run_loop_add_timer]
      | CONNECTION_OPENED status cid =>
        by_cases hst : status = 0
        · simp [pk_handler, hst, led_on, led_set, run_loop_remove_timer,
            State.setTimerSource, State.timer]
        · simp [pk_handler, hst, led_blink_start, run_loop_remove_timer,
            run_loop_set_timer, run_loop_add_timer]

theorem step_led_inv (s : State) (e : Event) (hinv : led_inv s) : led_inv (step s e).1 := by
  cases e with
  | led_tmr_expired =>
    cases hl : s.led_tmr.queued
    · rw [step_led_idle s hl]; exact hinv
    · rw [step_led_queued s hl]
      intro hc
      rw [(led_tick_app_state _ _).1] at hc
      have hc2 : s.app_state = .APP_CONN := by simpa [run_loop_remove_timer] using hc
      rw [(hinv hc2).2] at hl
      exact Bool.noConfusion hl
  | btn_tmr_expired g =>
    cases hb : s.btn_tmr.queued
    · rw [step_btn_idle g s hb]; exact hinv
    · rw [step_btn_queued g s hb]
      intro hc
      rw [(btn_tick_app_state _ _ _).1] at hc
      have hc2 : s.app_state = .APP_CONN := by simpa [run_loop_remove_timer] using hc
      rw [(btn_tick_led_fields g _).1, (btn_tick_led_fields g _).2.2]
      exact hinv hc2
  | packet type ch pkt size => exact pk_handler_led_inv type ch pkt size s hinv

theorem run_led_inv (evs : List Event) : ∀ s : State, led_inv s → led_inv (run s evs).1 := by
  induction evs with
  | nil => intro s h; exact h
  | cons e es ih =>
    intro s h
    rw [run_cons]
    exact ih _ (step_led_inv s e h)

theorem reachable_led_inv (s : State) (h : Reachable s) : led_inv s := by
  obtain ⟨evs, rfl⟩ := h
  exact run_led_inv evs initial (fun hc => by simp [initial, btstack_main, led_blink_start,
    led_set, run_loop_remove_timer, run_loop_set_timer, run_loop_add_timer,
    State.setTimerSource, State.timer, boot] at hc)

theorem step_app_state_of_timer (s : State) (g : Nat → Bool) :
    (step s .led_tmr_expired).1.app_state = s.app_state ∧
    (step s (.btn_tmr_expired g)).1.app_state = s.app_state := by
  constructor
  · cases hl : s.led_tmr.queued
    · rw [step_led_idle s hl]
    · rw [step_led_queued s hl, (led_tick_app_state _ _).1]
      simp [run_loop_remove_timer]
  · cases hb : s.btn_tmr.queued
    · rw [step_btn_idle g s hb]
    · rw [step_btn_queued g s hb, (btn_tick_app_state _ _ _).1]
      simp [run_loop_remove_timer]

/-- C14: in every state reachable from the start state in which the device is
Connected, the indicator output is on and the indicator timer is not in the run
loop.  An indicator tick fires only when its timer is armed, so the expiry event
does nothing there; the timers never change DeviceState; and whatever event
comes next, if the device is still Connected afterwards the output is still on and
the timer still out of the run loop. -/
theorem C14_solid_on_while_connected (s : State) (hr : Reachable s)
    (hc : s.app_state = .APP_CONN) :
    s.led_pin = true ∧ s.led_tmr.queued = false ∧
    step s .led_tmr_expired = (s, []) ∧
    (∀ gpio_get, (step s .led_tmr_expired).1.app_state = s.app_state ∧
      (step s (.btn_tmr_expired gpio_get)).1.app_state = s.app_state ∧
      (step s (.btn_tmr_expired gpio_get)).1.led_pin = true) ∧
    (∀ e, (step s e).1.app_state = .APP_CONN →
      (step s e).1.led_pin = true ∧ (step s e).1.led_tmr.queued = false) := by
  have hinv := reachable_led_inv s hr hc
  refine ⟨hinv.1, hinv.2, step_led_idle s hinv.2, ?_, ?_⟩
  · intro g
    refine ⟨(step_app_state_of_timer s g).1, (step_app_state_of_timer s g).2, ?_⟩
    exact (step_led_inv s (.btn_tmr_expired g) (reachable_led_inv s hr)
      (by rw [(step_app_state_of_timer s g).2]; exact hc)).1
  · intro e he
    exact step_led_inv s e (reachable_led_inv s hr) he

/-- Witness for C14: the Connected state after StackReady, two indicator ticks and
ConnectionOpened(7, 0). -/
theorem C14_solid_on_while_connected_witness :
    (run initial [StackReady, .led_tmr_expired, .led_tmr_expired,
      ConnectionOpened 7 0]).1.led_pin = true ∧
    (run initial [StackReady, .led_tmr_expired, .led_tmr_expired,
      ConnectionOpened 7 0]).1.led_tmr.queued = false :=
  have h := C14_solid_on_while_connected
    (run initial [StackReady, .led_tmr_expired, .led_tmr_expired, ConnectionOpened 7 0]).1
    ⟨[StackReady, .led_tmr_expired, .led_tmr_expired, ConnectionOpened 7 0], rfl⟩ (by decide)
  ⟨h.1, h.2.1⟩

/-! ## One send grant, heartbeat, slot agreement -/

theorem send_grant_frame (s : State) (ch size : Nat) :
    (pk_handler .HCI_EVENT_PACKET ch (.HCI_EVENT_HID_META .CAN_SEND_NOW) size s).1.app_state
      = s.app_state ∧
    (pk_handler .HCI_EVENT_PACKET ch (.HCI_EVENT_HID_META .CAN_SEND_NOW) size s).1.hid_cid
      = s.hid_cid ∧
    (pk_handler .HCI_EVENT_PACKET ch (.HCI_EVENT_HID_META .CAN_SEND_NOW) size s).1.last_btn_state
      = s.last_btn_state := by
  by_cases hocc : s.pending_report = true ∧ s.pending_key ≠ 0
  · rw [send_grant_occupied s ch size hocc.1 hocc.2]
    exact ⟨rfl, rfl, rfl⟩
  · rw [send_grant_idle s ch size hocc]
    exact ⟨rfl, rfl, rfl⟩

/-- C15: one SendGrant step, for every state.  If the slot holds a key `k` (flag
set, `k` a non-zero `uint8_t` value), exactly one report, carrying `k`, is
transmitted to the stored handle, the slot becomes empty (flag false, key 0) and
exactly one further grant is requested.  If the slot is empty, exactly one
neutral report is transmitted, the state is unchanged and no grant is requested.
In both cases DeviceState, the handle and the previous button mask are unchanged.
In a reachable state an occupied slot always holds such a key. -/
theorem C15_send_grant_step (s : State) (ch size : Nat) :
    (∀ k, s.pending_report = true → s.pending_key = k → k ≠ 0 → k < 256 →
      pk_handler .HCI_EVENT_PACKET ch (.HCI_EVENT_HID_META .CAN_SEND_NOW) size s =
        ({ s with pending_key := 0, pending_report := false },
         [.send_interrupt_message s.hid_cid [0xA1, 0x01, 0x00, 0x00, k, 0, 0, 0, 0, 0],
          .request_can_send_now_event s.hid_cid])) ∧
    (s.pending_report = false →
      pk_handler .HCI_EVENT_PACKET ch (.HCI_EVENT_HID_META .CAN_SEND_NOW) size s =
        (s, [.send_interrupt_message s.hid_cid [0xA1, 0x01, 0x00, 0x00, 0x00, 0, 0, 0, 0, 0]])) ∧
    ((pk_handler .HCI_EVENT_PACKET ch (.HCI_EVENT_HID_META .CAN_SEND_NOW) size s).1.app_state
        = s.app_state ∧
      (pk_handler .HCI_EVENT_PACKET ch (.HCI_EVENT_HID_META .CAN_SEND_NOW) size s).1.hid_cid
        = s.hid_cid ∧
      (pk_handler .HCI_EVENT_PACKET ch (.HCI_EVENT_HID_META .CAN_SEND_NOW)
        size s).1.last_btn_state = s.last_btn_state) ∧
    (Reachable s → s.pending_report = true →
      s.pending_key ∈ KEY_USAGE ∧
      pk_handler .HCI_EVENT_PACKET ch (.HCI_EVENT_HID_META .CAN_SEND_NOW) size s =
        ({ s with pending_key := 0, pending_report := false },
         [.send_interrupt_message s.hid_cid
            [0xA1, 0x01, 0x00, 0x00, s.pending_key, 0, 0, 0, 0, 0],
          .request_can_send_now_event s.hid_cid])) := by
  refine ⟨?_, ?_, send_grant_frame s ch size, ?_⟩
  · intro k hp hk hk0 hk256
    subst hk
    rw [send_grant_occupied s ch size hp hk0, Nat.mod_eq_of_lt hk256]
  · intro hp
    rw [send_grant_idle s ch size (fun h => by rw [hp] at h; exact Bool.noConfusion h.1)]
  · intro hr hp
    have hkey : s.pending_key ∈ KEY_USAGE := by
      rcases reachable_slot_inv s hr with ⟨_, hk⟩ | ⟨hp2, _⟩
      · exact hk
      · rw [hp] at hp2; exact Bool.noConfusion hp2
    have hb := key_usage_bounds _ hkey
    refine ⟨hkey, ?_⟩
    rw [send_grant_occupied s ch size hp hb.1, Nat.mod_eq_of_lt hb.2]

/-- Witness for C15: the grant after a press of S while connected with handle 7,
and a grant in the start state, where the slot is empty. -/
theorem C15_send_grant_step_witness :
    pk_handler .HCI_EVENT_PACKET 0 (.HCI_EVENT_HID_META .CAN_SEND_NOW) 0
      (run initial [StackReady, ConnectionOpened 7 0, .btn_tmr_expired (pins_of [2])]).1 =
      ({ (run initial [StackReady, ConnectionOpened 7 0,
            .btn_tmr_expired (pins_of [2])]).1 with
          pending_key := 0, pending_report := false },
       [.send_interrupt_message
          (run initial [StackReady, ConnectionOpened 7 0,
            .btn_tmr_expired (pins_of [2])]).1.hid_cid
          [0xA1, 0x01, 0x00, 0x00, 0x16, 0, 0, 0, 0, 0],
        .request_can_send_now_event
          (run initial [StackReady, ConnectionOpened 7 0,
            .btn_tmr_expired (pins_of [2])]).1.hid_cid]) ∧
    pk_handler .HCI_EVENT_PACKET 0 (.HCI_EVENT_HID_META .CAN_SEND_NOW) 0 initial =
      (initial,
       [.send_interrupt_message initial.hid_cid [0xA1, 0x01, 0x00, 0x00, 0x00, 0, 0, 0, 0, 0]]) ∧
    (run initial [StackReady, ConnectionOpened 7 0,
      .btn_tmr_expired (pins_of [2])]).1.pending_key ∈ KEY_USAGE :=
  ⟨(C15_send_grant_step
      (run initial [StackReady, ConnectionOpened 7 0, .btn_tmr_expired (pins_of [2])]).1
      0 0).1 0x16 (by decide) (by decide) (by decide) (by decide),
   (C15_send_grant_step initial 0 0).2.1 (by decide),
   ((C15_send_grant_step
      (run initial [StackReady, ConnectionOpened 7 0, .btn_tmr_expired (pins_of [2])]).1
      0 0).2.2.2
      ⟨[StackReady, ConnectionOpened 7 0, .btn_tmr_expired (pins_of [2])], rfl⟩
      (by decide)).1⟩

theorem rearmed (ts : Timer) (ms : Nat) (s : State) :
    (run_loop_add_timer ts (run_loop_set_timer ts ms s)).timer ts
      = { timeout := ms, queued := true } := by
  cases ts <;> rfl

/-- C17: heartbeat and rescheduling are unconditional.  For every state, every
button sample and every timer argument, `btn_tick` emits exactly one watchdog
reset and leaves the timer it was called with in the run loop with a delay of
10 ms (one `set_timer` with 10 and one `add_timer` for it), and `led_tick` does
the same with 500 ms.  In particular each tick, called by the run loop on its own
timer, re-arms that timer. -/
theorem C17_heartbeat_unconditional (ts : Timer) (gpio_get : Nat → Bool) (s : State) :
    watchdog_updates (btn_tick ts gpio_get s).2 = 1 ∧
    (btn_tick ts gpio_get s).2.count (Effect.run_loop_set_timer ts 10) = 1 ∧
    (btn_tick ts gpio_get s).2.count (Effect.run_loop_add_timer ts) = 1 ∧
    (btn_tick ts gpio_get s).1.timer ts = { timeout := 10, queued := true } ∧
    (btn_tick .btn_tmr gpio_get s).1.btn_tmr = { timeout := 10, queued := true } ∧
    watchdog_updates (led_tick ts s).2 = 1 ∧
    (led_tick ts s).2.count (Effect.run_loop_set_timer ts 500) = 1 ∧
    (led_tick ts s).2.count (Effect.run_loop_add_timer ts) = 1 ∧
    (led_tick ts s).1.timer ts = { timeout := 500, queued := true } ∧
    (led_tick .led_tmr s).1.led_tmr = { timeout := 500, queued := true } := by
  have hb : watchdog_updates (btn_tick ts gpio_get s).2 = 1 ∧
      (btn_tick ts gpio_get s).2.count (Effect.run_loop_set_timer ts 10) = 1 ∧
      (btn_tick ts gpio_get s).2.count (Effect.run_loop_add_timer ts) = 1 ∧
      (btn_tick ts gpio_get s).1.timer ts = { timeout := 10, queued := true } := by
    rcases btn_tick_cases ts gpio_get s with ⟨m, _, _, _, _, h⟩ | ⟨_, h⟩
    · rw [h]
      exact ⟨by simp [watchdog_updates], by simp, by simp, rearmed ts 10 _⟩
    · rw [h]
      exact ⟨by simp [watchdog_updates], by simp, by simp, rearmed ts 10 _⟩
  have hb2 : (btn_tick .btn_tmr gpio_get s).1.btn_tmr = { timeout := 10, queued := true } := by
    rcases btn_tick_cases .btn_tmr gpio_get s with ⟨m, _, _, _, _, h⟩ | ⟨_, h⟩ <;> rw [h] <;> rfl
  refine ⟨hb.1, hb.2.1, hb.2.2.1, hb.2.2.2, hb2, ?_, ?_, ?_, ?_, ?_⟩
  · simp [watchdog_updates, led_tick, led_set]
  · simp [led_tick, led_set]
  · simp [led_tick, led_set]
  · exact rearmed ts 500 _
  · rfl

/-- C18: in every state reachable from the start state the flag and the key of the
slot agree: `pending_report` is true exactly when `pending_key` is non-zero, and
then `pending_key` is one of 0x04, 0x1A, 0x16, 0x07.  So the guard
`pending_report && pending_key` of the handler equals `pending_report`, and a
SendGrant that finds the slot occupied transmits the key and empties the slot: it
never answers with a neutral report that leaves the slot occupied. -/
theorem C18_flag_and_key_agree (s : State) (hr : Reachable s) :
    (s.pending_report = true ↔ s.pending_key ≠ 0) ∧
    (s.pending_report = true → s.pending_key ∈ [0x04, 0x1A, 0x16, 0x07]) ∧
    (s.pending_report && s.pending_key != 0) = s.pending_report ∧
    (s.pending_report = true → ∀ ch size,
      (pk_handler .HCI_EVENT_PACKET ch (.HCI_EVENT_HID_META .CAN_SEND_NOW)
        size s).1.pending_report = false ∧
      reports (pk_handler .HCI_EVENT_PACKET ch (.HCI_EVENT_HID_META .CAN_SEND_NOW) size s).2
        = [(s.hid_cid, [0xA1, 0x01, 0x00, 0x00, s.pending_key, 0, 0, 0, 0, 0])]) := by
  rcases reachable_slot_inv s hr with ⟨hp, hk⟩ | ⟨hp, hk⟩
  · have hb := key_usage_bounds _ hk
    refine ⟨⟨fun _ => hb.1, fun _ => hp⟩, fun _ => hk, ?_, ?_⟩
    · simp [hp, hb.1]
    · intro _ ch size
      rw [send_grant_occupied s ch size hp hb.1, Nat.mod_eq_of_lt hb.2]
      exact ⟨rfl, rfl⟩
  · refine ⟨⟨fun h => ?_, fun h => absurd hk h⟩, fun h => ?_, ?_, fun h => ?_⟩
    · rw [hp] at h; exact Bool.noConfusion h
    · rw [hp] at h; exact Bool.noConfusion h
    · simp [hp]
    · rw [hp] at h; exact Bool.noConfusion h

/-- Witness for C18: the state after a press of W while connected with handle 7. -/
theorem C18_flag_and_key_agree_witness :
    (run initial [StackReady, ConnectionOpened 7 0,
      .btn_tmr_expired (pins_of [1])]).1.pending_key ∈ [0x04, 0x1A, 0x16, 0x07] :=
  (C18_flag_and_key_agree
    (run initial [StackReady, ConnectionOpened 7 0, .btn_tmr_expired (pins_of [1])]).1
    ⟨[StackReady, ConnectionOpened 7 0, .btn_tmr_expired (pins_of [1])], rfl⟩).2.1 (by decide)

/-! ## Indicator output against `led_state` -/

/-- C16 (the code at the failing input): `led_tick` drives the negation of
`led_state`, not of the output level, and `led_on` drives the output on without
updating `led_state`.  After StackReady and two indicator ticks `led_state` and
the output are both off; ConnectionOpened(7, 0) forces the output on and
ConnectionClosed restarts blinking.  The first indicator tick that follows fires
with the output on and leaves it on: the level is not inverted. -/
theorem C16_tick_after_forced_on_keeps_level :
    (∀ (ts : Timer) (s : State), (led_tick ts s).1.led_pin = !s.led_state) ∧
    (∀ s : State, (led_on s).1.led_pin = true ∧ (led_on s).1.led_state = s.led_state) ∧
    (run initial [StackReady, .led_tmr_expired, .led_tmr_expired]).1.led_pin = false ∧
    (run initial [StackReady, .led_tmr_expired, .led_tmr_expired]).1.led_state = false ∧
    (run initial [StackReady, .led_tmr_expired, .led_tmr_expired, ConnectionOpened 7 0,
      ConnectionClosed]).1.led_pin = true ∧
    (run initial [StackReady, .led_tmr_expired, .led_tmr_expired, ConnectionOpened 7 0,
      ConnectionClosed]).1.led_tmr.queued = true ∧
    (step (run initial [StackReady, .led_tmr_expired, .led_tmr_expired, ConnectionOpened 7 0,
      ConnectionClosed]).1 .led_tmr_expired).2 =
      [.watchdog_update, .gpio_put LED_PIN true, .run_loop_set_timer .led_tmr 500,
       .run_loop_add_timer .led_tmr] ∧
    (step (run initial [StackReady, .led_tmr_expired, .led_tmr_expired, ConnectionOpened 7 0,
      ConnectionClosed]).1 .led_tmr_expired).1.led_pin = true := by
  refine ⟨?_, ?_, by decide, by decide, by decide, by decide, by decide, by decide⟩
  · intro ts s
    simp [led_tick, led_set, run_loop_set_timer, run_loop_add_timer]
  · intro s
    simp [led_on, led_set, run_loop_remove_timer]

/-! ## Keys enqueued against keys transmitted -/

theorem sent_keys_append (a b : List Effect) : sent_keys (a ++ b) = sent_keys a ++ sent_keys b := by
  simp [sent_keys, key_bytes, reports_append]

theorem sent_keys_of_no_report (es : List Effect) (h : reports es = []) : sent_keys es = [] := by
  simp [sent_keys, key_bytes, h]

theorem slot_keys_congr (a b : State) (h1 : a.pending_report = b.pending_report)
    (h2 : a.pending_key = b.pending_key) : slot_keys a = slot_keys b := by
  simp [slot_keys, h1, h2]

theorem step_keys (s : State) (e : Event) (hinv : slot_inv s) :
    slot_keys s ++ enqueued_by s e = sent_keys (step s e).2 ++ slot_keys (step s e).1 := by
  cases e with
  | led_tmr_expired =>
    cases hl : s.led_tmr.queued
    · rw [step_led_idle s hl]; simp [enqueued_by, sent_keys, key_bytes, reports]
    · rw [step_led_queued s hl, sent_keys_of_no_report _ (led_tick_quiet _ _).2,
        slot_keys_congr _ (run_loop_remove_timer .led_tmr s) (led_tick_app_state _ _).2.2.1
          (led_tick_app_state _ _).2.2.2]
      simp [enqueued_by, slot_keys, run_loop_remove_timer]
  | btn_tmr_expired g =>
    cases hb : s.btn_tmr.queued
    · simp [enqueued_by, step_btn_idle g s hb, grants, sent_keys, key_bytes, reports]
    · simp only [enqueued_by, step_btn_queued g s hb]
      rcases btn_tick_cases .btn_tmr g (run_loop_remove_timer .btn_tmr s) with
        ⟨m, _, _, hp, _, h⟩ | ⟨_, h⟩
      · have hp2 : s.pending_report = false := by simpa [run_loop_remove_timer] using hp
        rw [h]
        simp [grants, sent_keys, key_bytes, reports, slot_keys, hp2,
          (enqueued_fields _ _ _ _).1]
      · rw [h]
        have hs : slot_keys (sampled .btn_tmr g (run_loop_remove_timer .btn_tmr s)) =
            slot_keys s :=
          slot_keys_congr _ _ (by rw [(sampled_fields _ _ _).1]; simp [run_loop_remove_timer])
            (by rw [(sampled_fields _ _ _).2.1]; simp [run_loop_remove_timer])
        rw [hs]
        simp [grants, sent_keys, key_bytes, reports]
  | packet type ch pkt size =>
    simp only [step, enqueued_by, List.append_nil]
    by_cases hg : type = .HCI_EVENT_PACKET ∧ pkt = .HCI_EVENT_HID_META .CAN_SEND_NOW
    · obtain ⟨rfl, rfl⟩ := hg
      rcases hinv with ⟨hp, hk⟩ | ⟨hp, hk⟩
      · have hb := key_usage_bounds _ hk
        rw [send_grant_occupied s ch size hp hb.1, Nat.mod_eq_of_lt hb.2]
        simp [sent_keys, key_bytes, reports, slot_keys, hp, hb.1]
      · rw [send_grant_idle s ch size (fun h => by rw [hp] at h; exact Bool.noConfusion h.1)]
        simp [sent_keys, key_bytes, reports, slot_keys, hp]
    · have h := pk_handler_quiet type ch pkt size s hg
      rw [sent_keys_of_no_report _ h.2.1, slot_keys_congr _ s h.2.2.1 h.2.2.2]
      rfl

theorem run_keys (evs : List Event) : ∀ s : State, slot_inv s →
    slot_keys s ++ enqueued_keys s evs =
      sent_keys (run s evs).2 ++ slot_keys (run s evs).1 := by
  induction evs with
  | nil => intro s _; simp [enqueued_keys, run, sent_keys, key_bytes, reports]
  | cons e es ih =>
    intro s hinv
    have h1 := step_keys s e hinv
    have h2 := ih (step s e).1 (step_slot_inv s e hinv)
    rw [run_cons, sent_keys_append]
    simp only [enqueued_keys]
    rw [← List.append_assoc, h1, List.append_assoc, h2, List.append_assoc]

/-- C19: no key is lost, duplicated or reordered between enqueue and transmission.
For every sequence of events from the start state, the keys enqueued by the
sampling ticks are exactly the non-zero key bytes of the transmitted reports, in
the same order, followed by the key in the slot when the slot is occupied at the
end.  So the transmitted keys are an initial segment of the enqueued keys, shorter
by exactly one when the slot is occupied at the end and of the same length when
it is empty. -/
theorem C19_keys_sent_in_order (evs : List Event) :
    enqueued_keys initial evs =
      sent_keys (run initial evs).2 ++ slot_keys (run initial evs).1 ∧
    sent_keys (run initial evs).2 <+: enqueued_keys initial evs ∧
    ((run initial evs).1.pending_report = true →
      (enqueued_keys initial evs).length = (sent_keys (run initial evs).2).length + 1) ∧
    ((run initial evs).1.pending_report = false →
      (enqueued_keys initial evs).length = (sent_keys (run initial evs).2).length) := by
  have h : enqueued_keys initial evs =
      sent_keys (run initial evs).2 ++ slot_keys (run initial evs).1 := by
    have := run_keys evs initial (Or.inr ⟨rfl, rfl⟩)
    simpa [slot_keys, initial, btstack_main, led_blink_start, led_set, boot,
      run_loop_remove_timer, run_loop_set_timer, run_loop_add_timer] using this
  refine ⟨h, ⟨_, h.symm⟩, ?_, ?_⟩
  · intro hp
    rw [h]
    simp [slot_keys, hp]
  · intro hp
    rw [h]
    simp [slot_keys, hp]

/-- Witness for C19: A and then W are enqueued over two connections; A has been
transmitted and W is still in the slot. -/
theorem C19_keys_sent_in_order_witness :
    (enqueued_keys initial [StackReady, ConnectionOpened 7 0, .btn_tmr_expired (pins_of [0]),
      SendGrant, ConnectionClosed, SendGrant, ConnectionOpened 9 0,
      .btn_tmr_expired (pins_of [0, 1])]).length =
    (sent_keys (run initial [StackReady, ConnectionOpened 7 0, .btn_tmr_expired (pins_of [0]),
      SendGrant, ConnectionClosed, SendGrant, ConnectionOpened 9 0,
      .btn_tmr_expired (pins_of [0, 1])]).2).length + 1 :=
  (C19_keys_sent_in_order [StackReady, ConnectionOpened 7 0, .btn_tmr_expired (pins_of [0]),
    SendGrant, ConnectionClosed, SendGrant, ConnectionOpened 9 0,
    .btn_tmr_expired (pins_of [0, 1])]).2.2.1 (by decide)

end HidButtons
